import Mathlib

/-!
# Session broker (`backend/drm/session.c`)

A shallow embedding of the logind session broker: `wlr_session_start`,
`wlr_session_end`, `wlr_session_take_device`, `wlr_session_release_device`
and their static helpers, as explicit state passing over a `World` that holds
the process heap, the open bus connections, the descriptor table and the
ordered log of library calls.

Everything the C file calls but does not define (libsystemd, libc, the
kernel) is the environment: its choices are the fields of `Env`, its effects
on the process are the small functions of the section "Library calls".
`wlr_log` only writes a diagnostic and is left out.
-/

namespace Session

/-! ## Data model -/

/-- A C pointer; `0` is `NULL`. -/
abbrev Ptr := Nat

/-- The handle `struct wlr_session`: three owned strings and the bus. -/
structure wlr_session where
  id : Ptr
  seat : Ptr
  path : Ptr
  bus : Ptr
deriving DecidableEq, Repr

/-- The five members of `org.freedesktop.login1.Session` the file calls. -/
inductive Member where
  | Activate
  | TakeControl
  | ReleaseControl
  | TakeDevice
  | ReleaseDevice
deriving DecidableEq, Repr

/-- An argument of a method call: `"u"` (uint32) or `"b"` (boolean). -/
inductive Arg where
  | u (n : Nat)
  | b (v : Bool)
deriving DecidableEq, Repr

/-- One field of a reply body. A descriptor field `h` arrives as a descriptor
number of this process, open on the node with device number `rdev`. -/
inductive Item where
  | h (fd : Nat) (rdev : Nat)
  | b (v : Bool)
  | u (n : Nat)
deriving DecidableEq, Repr

/-- A reply message (`sd_bus_message *`); `none` stands for `NULL`. -/
abbrev Msg := List Item

/-- The library calls that acquire or release something, in program order. -/
inductive Event where
  | alloc (p : Ptr)
  | free (p : Ptr)
  | bus_open (bus : Ptr)
  | bus_unref (bus : Ptr)
  | call (bus : Ptr) (destination : String) (path : Ptr) (interface : String)
      (member : Member) (args : List Arg)
  | error_free
  | message_unref (msg : Option Msg)
deriving DecidableEq, Repr

/-- A live heap block: its size in bytes and the C string written in it
(one character per byte, the terminating NUL not included in `str`). -/
structure Block where
  cap : Nat
  str : String
deriving DecidableEq, Repr

/-- The state of the process as far as the file can see it. -/
structure World where
  /-- live heap blocks, newest first -/
  heap : List (Ptr × Block)
  /-- open bus connections, each with a single reference -/
  buses : List Ptr
  /-- descriptor table: descriptor number and `st_rdev` of its node -/
  fds : List (Nat × Nat)
  /-- descriptor limit (`RLIMIT_NOFILE`) -/
  nofile : Nat
  /-- the highest address handed out so far -/
  next : Ptr
  /-- log of library calls -/
  trace : List Event
deriving DecidableEq, Repr

/-- The choices of the outside: return codes and payloads of the lookups, of
the allocator, of the bus and of `stat`. A payload is used only when the
return code is not negative. -/
structure Env where
  /-- The call `sd_pid_get_session(getpid(), ..)`: return code and session id -/
  pid_get_session : Int × String
  /-- The call `sd_session_get_seat(id, ..)`: return code and seat name -/
  session_get_seat : String → Int × String
  /-- whether `malloc(n)` succeeds -/
  malloc_ok : Nat → Bool
  /-- The call `sd_bus_open_system`: return code -/
  bus_open_system : Int
  /-- The call `sd_bus_call_method`: return code and reply body -/
  call_method : Member → List Arg → Int × Msg
  /-- The call `stat(path, ..)`: return code and `st_rdev` -/
  stat : String → Int × Nat

/-! ## Library calls -/

/-- Hand out a fresh block (never `NULL`). -/
def alloc (b : Block) (w : World) : Ptr × World :=
  let p := w.next + 1
  (p, { w with heap := (p, b) :: w.heap, next := p, trace := w.trace ++ [Event.alloc p] })

/-- The libc `free`: nothing happens on `NULL`. -/
def free (p : Ptr) (w : World) : World :=
  let w := { w with trace := w.trace ++ [Event.free p] }
  if p = 0 then w else { w with heap := w.heap.eraseP (fun e => e.1 == p) }

/-- The libc `malloc(n)`: `NULL` or a fresh block of `n` bytes. -/
def malloc (env : Env) (n : Nat) (w : World) : Ptr × World :=
  if env.malloc_ok n then alloc ⟨n, ""⟩ w else (0, w)

/-- The string a pointer names (empty when the pointer is not live). -/
def cstr (w : World) (p : Ptr) : String :=
  match w.heap.lookup p with
  | some b => b.str
  | none => ""

/-- The call `sd_pid_get_session(getpid(), &out)`: on success stores a
freshly allocated string, on failure leaves `out` alone. -/
def sd_pid_get_session (env : Env) (out : Ptr) (w : World) : Int × Ptr × World :=
  let r := env.pid_get_session
  if r.1 < 0 then (r.1, out, w)
  else
    let a := alloc ⟨r.2.length + 1, r.2⟩ w
    (r.1, a.1, a.2)

/-- The call `sd_session_get_seat(id, &out)`: as `sd_pid_get_session`. -/
def sd_session_get_seat (env : Env) (id : String) (out : Ptr) (w : World) :
    Int × Ptr × World :=
  let r := env.session_get_seat id
  if r.1 < 0 then (r.1, out, w)
  else
    let a := alloc ⟨r.2.length + 1, r.2⟩ w
    (r.1, a.1, a.2)

/-- The constant part of `fmt`, the text before `%s`. -/
def session_fmt : String := "/org/freedesktop/login1/session/"

/-- The largest `int`. -/
def INT_MAX : Int := 2147483647

/-- The value an `int` holds after an addition: two's complement, 32 bits. -/
def int_wrap (x : Int) : Int :=
  (x + 2 ^ 31) % 2 ^ 32 - 2 ^ 31

/-- The conversion of an `int` to `size_t` (64 bits). -/
def size_t_of (x : Int) : Nat :=
  (x % 2 ^ 64).toNat

/-- The call `snprintf(NULL, 0, fmt, id)`: the length of the formatted text,
or a negative value when it does not fit an `int`. -/
def snprintf_len (id : String) : Int :=
  let n : Nat := (session_fmt ++ id).length
  if (n : Int) ≤ INT_MAX then (n : Int) else -1

/-- Store a string in the live block at `p`. -/
def write_str (p : Ptr) (s : String) : List (Ptr × Block) → List (Ptr × Block)
  | [] => []
  | e :: rest =>
    if e.1 = p then (e.1, { e.2 with str := s }) :: rest else e :: write_str p s rest

/-- The call `sprintf(p, fmt, id)`: writes the formatted text into the block
at `p`. -/
def sprintf (p : Ptr) (id : String) (w : World) : World :=
  { w with heap := write_str p (session_fmt ++ id) w.heap }

/-- The call `sd_bus_open_system(&out)`: on success stores a new connection. -/
def sd_bus_open_system (env : Env) (out : Ptr) (w : World) : Int × Ptr × World :=
  let r := env.bus_open_system
  if r < 0 then (r, out, w)
  else
    let p := w.next + 1
    (r, p, { w with buses := p :: w.buses, next := p, trace := w.trace ++ [Event.bus_open p] })

/-- The call `sd_bus_unref(bus)`: drops the single reference, which closes the
connection; nothing happens on `NULL`. -/
def sd_bus_unref (bus : Ptr) (w : World) : World :=
  let w := { w with trace := w.trace ++ [Event.bus_unref bus] }
  if bus = 0 then w else { w with buses := w.buses.erase bus }

/-- The descriptors a message carries. -/
def msg_fds : Msg → List (Nat × Nat)
  | [] => []
  | Item.h fd rdev :: rest => (fd, rdev) :: msg_fds rest
  | _ :: rest => msg_fds rest

/-- The call `sd_bus_call_method(bus, destination, path, interface, member,
&error, &msg, types, ...)`: one blocking call. On success the reply is stored
and the descriptors it carries are open in the process; on failure the reply
stays `NULL`. -/
def sd_bus_call_method (env : Env) (bus : Ptr) (destination : String) (path : Ptr)
    (interface : String) (member : Member) (args : List Arg) (w : World) :
    Int × Option Msg × World :=
  let r := env.call_method member args
  let ev := Event.call bus destination path interface member args
  let w := { w with trace := w.trace ++ [ev] }
  if r.1 < 0 then (r.1, none, w)
  else (r.1, some r.2, { w with fds := msg_fds r.2 ++ w.fds })

/-- The call `sd_bus_error_free(&error)`. -/
def sd_bus_error_free (w : World) : World :=
  { w with trace := w.trace ++ [Event.error_free] }

/-- The call `sd_bus_message_unref(msg)`: frees the reply and closes the
descriptors it carries; nothing is closed on `NULL`. -/
def sd_bus_message_unref (msg : Option Msg) (w : World) : World :=
  let w := { w with trace := w.trace ++ [Event.message_unref msg] }
  match msg with
  | none => w
  | some m =>
    { w with fds := w.fds.filter (fun e => !((msg_fds m).map Prod.fst).contains e.1) }

/-- The call `sd_bus_message_read(msg, "hb", &fd, &paused)`: the fields are
read left to right and each one is stored as soon as it is read, so a reply
whose first field is a descriptor and whose second is not a boolean stores the
descriptor and then fails with `-ENXIO`. Returns the code and the two
destinations. -/
def sd_bus_message_read_hb (msg : Option Msg) (fd paused : Int) : Int × Int × Int :=
  match msg with
  | none => (-22, fd, paused)
  | some (Item.h r _ :: rest) =>
    match rest with
    | Item.b v :: _ => (1, (r : Int), if v then 1 else 0)
    | _ => (-6, (r : Int), paused)
  | some _ => (-6, fd, paused)

/-- The call `fcntl(fd, F_DUPFD_CLOEXEC, 0)`: the lowest free descriptor
number, open on the same node; `-1` when `fd` is not open or no number is
free. -/
def fcntl_dupfd_cloexec (fd : Int) (w : World) : Int × World :=
  if fd < 0 then (-1, w)
  else
    match w.fds.lookup fd.toNat with
    | none => (-1, w)
    | some rdev =>
      match (List.range w.nofile).find? (fun k => (w.fds.lookup k).isNone) with
      | none => (-1, w)
      | some k => ((k : Int), { w with fds := (k, rdev) :: w.fds })

/-- The call `fstat(fd, &st)`: return code and `st_rdev`. -/
def fstat (fd : Int) (w : World) : Int × Nat :=
  if fd < 0 then (-1, 0)
  else
    match w.fds.lookup fd.toNat with
    | none => (-1, 0)
    | some rdev => (0, rdev)

/-- The glibc macro `major`. -/
def major (dev : Nat) : Nat :=
  ((dev &&& 0x00000000000fff00) >>> 8) ||| ((dev &&& 0xfffff00000000000) >>> 32)

/-- The glibc macro `minor`. -/
def minor (dev : Nat) : Nat :=
  (dev &&& 0x00000000000000ff) ||| ((dev &&& 0x00000ffffff00000) >>> 12)

/-! ## The functions of `session.c` -/

/-- The label `error:` of `wlr_session_take_device`. -/
def take_device_error (fd : Int) (msg : Option Msg) (paused_out : Option Bool)
    (w : World) : Int × Option Bool × World :=
  let w := sd_bus_error_free w
  let w := sd_bus_message_unref msg w
  (fd, paused_out, w)

/-- The function `wlr_session_take_device(session, path, paused_out)`.
`paused_out` is `none` for a `NULL` destination, else the current content of
the flag; the result is the returned descriptor, the flag afterwards and the
world. -/
def wlr_session_take_device (env : Env) (session : wlr_session) (path : String)
    (paused_out : Option Bool) (w : World) : Int × Option Bool × World :=
  let fd : Int := -1
  let st := env.stat path
  if st.1 < 0 then (-1, paused_out, w)
  else
    let c := sd_bus_call_method env session.bus "org.freedesktop.login1" session.path
      "org.freedesktop.login1.Session" Member.TakeDevice
      [Arg.u (major st.2), Arg.u (minor st.2)] w
    let msg := c.2.1
    let w := c.2.2
    if c.1 < 0 then take_device_error fd msg paused_out w
    else
      let paused : Int := 0
      let r := sd_bus_message_read_hb msg fd paused
      let fd := r.2.1
      let paused := r.2.2
      if r.1 < 0 then take_device_error fd msg paused_out w
      else
        let d := fcntl_dupfd_cloexec fd w
        let fd := d.1
        let w := d.2
        if fd = -1 then take_device_error fd msg paused_out w
        else
          let paused_out := paused_out.map (fun _ => decide (paused ≠ 0))
          take_device_error fd msg paused_out w

/-- The function `wlr_session_release_device(session, fd)`. -/
def wlr_session_release_device (env : Env) (session : wlr_session) (fd : Int)
    (w : World) : World :=
  let st := fstat fd w
  if st.1 < 0 then w
  else
    let c := sd_bus_call_method env session.bus "org.freedesktop.login1" session.path
      "org.freedesktop.login1.Session" Member.ReleaseDevice
      [Arg.u (major st.2), Arg.u (minor st.2)] w
    let w := sd_bus_error_free c.2.2
    sd_bus_message_unref c.2.1 w

/-- The function `session_activate(session)`. -/
def session_activate (env : Env) (session : wlr_session) (w : World) : Bool × World :=
  let c := sd_bus_call_method env session.bus "org.freedesktop.login1" session.path
    "org.freedesktop.login1.Session" Member.Activate [] w
  let w := sd_bus_error_free c.2.2
  let w := sd_bus_message_unref c.2.1 w
  (decide (c.1 ≥ 0), w)

/-- The function `take_control(session)`. -/
def take_control (env : Env) (session : wlr_session) (w : World) : Bool × World :=
  let c := sd_bus_call_method env session.bus "org.freedesktop.login1" session.path
    "org.freedesktop.login1.Session" Member.TakeControl [Arg.b false] w
  let w := sd_bus_error_free c.2.2
  let w := sd_bus_message_unref c.2.1 w
  (decide (c.1 ≥ 0), w)

/-- The function `release_control(session)`. -/
def release_control (env : Env) (session : wlr_session) (w : World) : World :=
  let c := sd_bus_call_method env session.bus "org.freedesktop.login1" session.path
    "org.freedesktop.login1.Session" Member.ReleaseControl [] w
  let w := sd_bus_error_free c.2.2
  sd_bus_message_unref c.2.1 w

/-- The function `wlr_session_end(session)`. The handle is not written. -/
def wlr_session_end (env : Env) (session : wlr_session) (w : World) : World :=
  let w := release_control env session w
  let w := sd_bus_unref session.bus w
  let w := free session.id w
  let w := free session.path w
  free session.seat w

/-- The label `error:` of `wlr_session_start`. -/
def start_error (session : wlr_session) (w : World) : Bool × wlr_session × World :=
  let w := free session.path w
  let w := free session.id w
  let w := free session.seat w
  (false, session, w)

/-- The label `error_bus:` of `wlr_session_start`, which falls through to
`error:`. -/
def start_error_bus (session : wlr_session) (w : World) : Bool × wlr_session × World :=
  let w := sd_bus_unref session.bus w
  start_error session w

/-- The function `wlr_session_start(session)`: the returned flag, the handle
afterwards and the world. -/
def wlr_session_start (env : Env) (session : wlr_session) (w : World) :
    Bool × wlr_session × World :=
  let r := sd_pid_get_session env session.id w
  let session := { session with id := r.2.1 }
  let w := r.2.2
  if r.1 < 0 then start_error session w
  else
    let r := sd_session_get_seat env (cstr w session.id) session.seat w
    let session := { session with seat := r.2.1 }
    let w := r.2.2
    if r.1 < 0 then start_error session w
    else
      let len := snprintf_len (cstr w session.id)
      let m := malloc env (size_t_of (int_wrap (len + 1))) w
      let session := { session with path := m.1 }
      let w := m.2
      if session.path = 0 then start_error session w
      else
        let w := sprintf session.path (cstr w session.id) w
        let r := sd_bus_open_system env session.bus w
        let session := { session with bus := r.2.1 }
        let w := r.2.2
        if r.1 < 0 then start_error session w
        else
          let a := session_activate env session w
          if !a.1 then start_error_bus session a.2
          else
            let t := take_control env session a.2
            if !t.1 then start_error_bus session t.2
            else (true, session, t.2)

/-! ## Observations on the log -/

/-- The events a call added to the log. -/
def new_events (w w' : World) : List Event :=
  w'.trace.drop w.trace.length

/-- The acquisitions in a log: blocks allocated and connections opened. -/
def acquired (tr : List Event) : List Event :=
  tr.filter fun e =>
    match e with
    | Event.alloc _ => true
    | Event.bus_open _ => true
    | _ => false

/-- The releases in a log: `free` and `sd_bus_unref` of something that is not
`NULL` (both do nothing on `NULL`). -/
def released (tr : List Event) : List Event :=
  tr.filter fun e =>
    match e with
    | Event.free p => decide (p ≠ 0)
    | Event.bus_unref b => decide (b ≠ 0)
    | _ => false

/-- The part of a log that concerns remote calls: the call itself and the
release of its error record and of its reply. -/
def rpc_events (tr : List Event) : List Event :=
  tr.filter fun e =>
    match e with
    | Event.call _ _ _ _ _ _ => true
    | Event.error_free => true
    | Event.message_unref _ => true
    | _ => false

/-- The remote calls in a log: member and arguments, in order. -/
def calls : List Event → List (Member × List Arg)
  | [] => []
  | Event.call _ _ _ _ member args :: rest => (member, args) :: calls rest
  | _ :: rest => calls rest

/-- The reply pointer `sd_bus_call_method` leaves in `msg`. -/
def reply (env : Env) (member : Member) (args : List Arg) : Option Msg :=
  if (env.call_method member args).1 < 0 then none else some (env.call_method member args).2

/-- One complete exchange: the call, then its error record and its reply
released once each. -/
def exchange (env : Env) (session : wlr_session) (member : Member) (args : List Arg) :
    List Event :=
  [Event.call session.bus "org.freedesktop.login1" session.path
     "org.freedesktop.login1.Session" member args,
   Event.error_free,
   Event.message_unref (reply env member args)]

/-- The arguments of `TakeDevice` and `ReleaseDevice` for a device number:
`major(st.st_rdev), minor(st.st_rdev)` as `"uu"`. -/
def dev_args (rdev : Nat) : List Arg :=
  [Arg.u (major rdev), Arg.u (minor rdev)]

/-- The size `wlr_session_start` passes to `malloc`: `len + 1`, added in `int`
and converted to `size_t`. -/
def path_alloc_size (id : String) : Nat :=
  size_t_of (int_wrap (snprintf_len id + 1))

/-- Some step of `wlr_session_start` fails in this environment: the session
lookup, the seat lookup, the allocation of the path, the bus open, `Activate`
or `TakeControl`. -/
def start_step_fails (env : Env) : Prop :=
  env.pid_get_session.1 < 0 ∨
  (env.session_get_seat env.pid_get_session.2).1 < 0 ∨
  env.malloc_ok (path_alloc_size env.pid_get_session.2) = false ∨
  env.bus_open_system < 0 ∨
  (env.call_method Member.Activate []).1 < 0 ∨
  (env.call_method Member.TakeControl [Arg.b false]).1 < 0

instance (env : Env) : Decidable (start_step_fails env) := by
  unfold start_step_fails
  infer_instance

/-- The handle as the caller creates it: every field `NULL`. -/
def empty_session : wlr_session := ⟨0, 0, 0, 0⟩

/-- A heap whose blocks have distinct addresses, none `NULL` and none above
`n`. -/
def heap_ok (h : List (Ptr × Block)) (n : Ptr) : Prop :=
  (h.map Prod.fst).Nodup ∧ ∀ e ∈ h, 0 < e.1 ∧ e.1 ≤ n

instance (h : List (Ptr × Block)) (n : Ptr) : Decidable (heap_ok h n) := by
  unfold heap_ok
  infer_instance

/-- The addresses in use are distinct, not `NULL` and not above `next`. -/
def World.wf (w : World) : Prop :=
  heap_ok w.heap w.next ∧ (∀ b ∈ w.buses, 0 < b ∧ b ≤ w.next)

instance (w : World) : Decidable w.wf := by
  unfold World.wf
  infer_instance

/-- A string field is populated: it is set and the block it names is live.
A field that is `NULL`, or whose block has been freed, is not. -/
def World.str_populated (w : World) (p : Ptr) : Prop :=
  p ≠ 0 ∧ (w.heap.lookup p).isSome

instance (w : World) (p : Ptr) : Decidable (w.str_populated p) := by
  unfold World.str_populated
  infer_instance

/-- The bus field is populated: it is set and the connection it names is
open. A field that is `NULL`, or whose connection has been closed, is not. -/
def World.bus_populated (w : World) (b : Ptr) : Prop :=
  b ≠ 0 ∧ b ∈ w.buses

instance (w : World) (b : Ptr) : Decidable (w.bus_populated b) := by
  unfold World.bus_populated
  infer_instance

/-! ## Concrete inputs -/

/-- A process with the three standard descriptors open on a terminal. -/
def demo_world : World :=
  ⟨[], [], [(0, 34816), (1, 34816), (2, 34816)], 64, 0, []⟩

/-- A cooperative environment: session `c1` on `seat0`, `/dev/dri/card0` is
the device 226:0, and `TakeDevice` answers `(fd = 17, paused = false)`. -/
def demo_env : Env where
  pid_get_session := (0, "c1")
  session_get_seat := fun _ => (0, "seat0")
  malloc_ok := fun _ => true
  bus_open_system := 0
  call_method := fun m _ =>
    match m with
    | Member.TakeDevice => (1, [Item.h 17 57856, Item.b false])
    | _ => (1, [])
  stat := fun p => if p = "/dev/dri/card0" then (0, 57856) else (-2, 0)

/-- As `demo_env`, but the calling process has no session. -/
def env_no_session : Env := { demo_env with pid_get_session := (-61, "") }

/-- As `demo_env`, but the session has no seat. -/
def env_no_seat : Env := { demo_env with session_get_seat := fun _ => (-61, "") }

/-- As `demo_env`, but the allocation of the path fails. -/
def env_no_memory : Env := { demo_env with malloc_ok := fun _ => false }

/-- As `demo_env`, but the system bus cannot be opened. -/
def env_no_bus : Env := { demo_env with bus_open_system := -2 }

/-- As `demo_env`, but every method call is refused. -/
def env_refused : Env := { demo_env with call_method := fun _ _ => (-13, []) }

/-- As `demo_env`, but the `TakeDevice` reply carries a descriptor and no
boolean after it. -/
def env_short_reply : Env :=
  { demo_env with call_method := fun _ _ => (1, [Item.h 17 57856]) }

/-- As `demo_env`, but the descriptor of the `TakeDevice` reply is open on
another node, the device 253:0. -/
def env_other_device : Env :=
  { demo_env with
    call_method := fun m _ =>
      match m with
      | Member.TakeDevice => (1, [Item.h 17 64768, Item.b false])
      | _ => (1, []) }

/-- A started handle, as `wlr_session_start` leaves it in `demo_world`. -/
def demo_session : wlr_session := ⟨1, 2, 3, 4⟩

/-! ## Intermediate states of `wlr_session_start` -/

/-- The world after the session lookup succeeded. -/
def world_id (env : Env) (w : World) : World :=
  { w with heap := (w.next + 1, ⟨env.pid_get_session.2.length + 1, env.pid_get_session.2⟩) ::
             w.heap,
           next := w.next + 1,
           trace := w.trace ++ [Event.alloc (w.next + 1)] }

/-- The world after the seat lookup succeeded as well. -/
def world_seat (env : Env) (w : World) : World :=
  { world_id env w with
    heap := (w.next + 2, ⟨(env.session_get_seat env.pid_get_session.2).2.length + 1,
               (env.session_get_seat env.pid_get_session.2).2⟩) :: (world_id env w).heap,
    next := w.next + 2,
    trace := (world_id env w).trace ++ [Event.alloc (w.next + 2)] }

/-- The world after the path was allocated and written. -/
def world_path (env : Env) (w : World) : World :=
  { world_seat env w with
    heap := (w.next + 3, ⟨path_alloc_size env.pid_get_session.2,
               session_fmt ++ env.pid_get_session.2⟩) :: (world_seat env w).heap,
    next := w.next + 3,
    trace := (world_seat env w).trace ++ [Event.alloc (w.next + 3)] }

/-- The world after the bus was opened. -/
def world_bus (env : Env) (w : World) : World :=
  { world_path env w with
    buses := (w.next + 4) :: w.buses,
    next := w.next + 4,
    trace := (world_path env w).trace ++ [Event.bus_open (w.next + 4)] }

/-- The handle once all four fields are assigned. -/
def session_of (w : World) : wlr_session :=
  ⟨w.next + 1, w.next + 2, w.next + 3, w.next + 4⟩

/-- The world after one exchange: call, `sd_bus_error_free`,
`sd_bus_message_unref`. -/
def rpc_world (env : Env) (session : wlr_session) (member : Member) (args : List Arg)
    (w : World) : World :=
  let c := sd_bus_call_method env session.bus "org.freedesktop.login1" session.path
    "org.freedesktop.login1.Session" member args w
  sd_bus_message_unref c.2.1 (sd_bus_error_free c.2.2)

/-- The events `wlr_session_start` adds to the log. -/
def start_events_on (env : Env) (session : wlr_session) (w : World) : List Event :=
  new_events w (wlr_session_start env session w).2.2

/-- The descriptor table once the reply `m` is released. -/
def close_fds (m : Msg) (fds : List (Nat × Nat)) : List (Nat × Nat) :=
  fds.filter (fun e => !((msg_fds m).map Prod.fst).contains e.1)

/-! ## Helper lemmas -/

theorem new_events_append (w w' : World) (l : List Event) (h : w'.trace = w.trace ++ l) :
    new_events w w' = l := by
  simp [new_events, h]

theorem lookup_head (p : Ptr) (b : Block) (h : List (Ptr × Block)) :
    List.lookup p ((p, b) :: h) = some b := by
  simp [List.lookup]

theorem lookup_skip (p q : Ptr) (b : Block) (h : List (Ptr × Block)) (hne : p ≠ q) :
    List.lookup p ((q, b) :: h) = List.lookup p h := by
  have : (p == q) = false := by simpa using hne
  simp [List.lookup, this]

theorem erase_head (p : Ptr) (b : Block) (h : List (Ptr × Block)) :
    List.eraseP (fun e => e.1 == p) ((p, b) :: h) = h := by
  simp [List.eraseP_cons]

theorem erase_skip (p q : Ptr) (b : Block) (h : List (Ptr × Block)) (hne : q ≠ p) :
    List.eraseP (fun e => e.1 == p) ((q, b) :: h) =
      (q, b) :: List.eraseP (fun e => e.1 == p) h := by
  have : (q == p) = false := by simpa using hne
  simp [List.eraseP_cons, this]

theorem pid_ok (env : Env) (out : Ptr) (w : World) (h1 : ¬ env.pid_get_session.1 < 0) :
    sd_pid_get_session env out w = (env.pid_get_session.1, w.next + 1, world_id env w) := by
  simp [sd_pid_get_session, h1, alloc, world_id]

theorem pid_fail (env : Env) (out : Ptr) (w : World) (h1 : env.pid_get_session.1 < 0) :
    sd_pid_get_session env out w = (env.pid_get_session.1, out, w) := by
  simp [sd_pid_get_session, h1]

theorem cstr_world_id (env : Env) (w : World) :
    cstr (world_id env w) (w.next + 1) = env.pid_get_session.2 := by
  simp [cstr, world_id, lookup_head]

theorem start_fail1 (env : Env) (session : wlr_session) (w : World)
    (h1 : env.pid_get_session.1 < 0) :
    wlr_session_start env session w = start_error session w := by
  simp only [wlr_session_start, pid_fail env _ w h1, h1, if_true]

theorem start_fail2 (env : Env) (session : wlr_session) (w : World)
    (h1 : ¬ env.pid_get_session.1 < 0)
    (h2 : (env.session_get_seat env.pid_get_session.2).1 < 0) :
    wlr_session_start env session w =
      start_error { session with id := w.next + 1 } (world_id env w) := by
  simp only [wlr_session_start, pid_ok env _ w h1, h1, if_false, cstr_world_id,
    sd_session_get_seat, h2, if_true]

theorem rpc_world_trace (env : Env) (session : wlr_session) (member : Member)
    (args : List Arg) (w : World) :
    (rpc_world env session member args w).trace =
      w.trace ++ exchange env session member args := by
  unfold rpc_world sd_bus_call_method sd_bus_error_free sd_bus_message_unref exchange reply
  by_cases h : (env.call_method member args).1 < 0 <;> simp [h]

theorem rpc_world_heap (env : Env) (session : wlr_session) (member : Member)
    (args : List Arg) (w : World) :
    (rpc_world env session member args w).heap = w.heap := by
  unfold rpc_world sd_bus_call_method sd_bus_error_free sd_bus_message_unref
  by_cases h : (env.call_method member args).1 < 0 <;> simp [h]

theorem rpc_world_buses (env : Env) (session : wlr_session) (member : Member)
    (args : List Arg) (w : World) :
    (rpc_world env session member args w).buses = w.buses := by
  unfold rpc_world sd_bus_call_method sd_bus_error_free sd_bus_message_unref
  by_cases h : (env.call_method member args).1 < 0 <;> simp [h]

theorem session_activate_eq (env : Env) (session : wlr_session) (w : World) :
    session_activate env session w =
      (decide ((env.call_method Member.Activate []).1 ≥ 0),
        rpc_world env session Member.Activate [] w) := by
  unfold session_activate rpc_world sd_bus_call_method
  by_cases h : (env.call_method Member.Activate []).1 < 0 <;> simp [h]

theorem take_control_eq (env : Env) (session : wlr_session) (w : World) :
    take_control env session w =
      (decide ((env.call_method Member.TakeControl [Arg.b false]).1 ≥ 0),
        rpc_world env session Member.TakeControl [Arg.b false] w) := by
  unfold take_control rpc_world sd_bus_call_method
  by_cases h : (env.call_method Member.TakeControl [Arg.b false]).1 < 0 <;> simp [h]

theorem release_control_eq (env : Env) (session : wlr_session) (w : World) :
    release_control env session w = rpc_world env session Member.ReleaseControl [] w := by
  rfl

theorem seat_ok (env : Env) (out : Ptr) (w : World)
    (h2 : ¬ (env.session_get_seat env.pid_get_session.2).1 < 0) :
    sd_session_get_seat env env.pid_get_session.2 out (world_id env w) =
      ((env.session_get_seat env.pid_get_session.2).1, w.next + 2, world_seat env w) := by
  simp [sd_session_get_seat, h2, alloc, world_id, world_seat]

theorem cstr_world_seat (env : Env) (w : World) :
    cstr (world_seat env w) (w.next + 1) = env.pid_get_session.2 := by
  simp [cstr, world_seat, world_id, lookup_head, lookup_skip]

theorem malloc_fail (env : Env) (w : World)
    (h3 : env.malloc_ok (path_alloc_size env.pid_get_session.2) = false) :
    malloc env (size_t_of (int_wrap (snprintf_len env.pid_get_session.2 + 1))) w = (0, w) := by
  have h : env.malloc_ok (size_t_of (int_wrap (snprintf_len env.pid_get_session.2 + 1))) = false := h3
  unfold malloc
  rw [h]
  simp

theorem malloc_sprintf_ok (env : Env) (w : World)
    (h3 : ¬ env.malloc_ok (path_alloc_size env.pid_get_session.2) = false) :
    malloc env (size_t_of (int_wrap (snprintf_len env.pid_get_session.2 + 1))) (world_seat env w) =
      (w.next + 3, { world_path env w with
        heap := (w.next + 3, ⟨path_alloc_size env.pid_get_session.2, ""⟩) ::
          (world_seat env w).heap }) := by
  have h : env.malloc_ok (path_alloc_size env.pid_get_session.2) = true := by
    simpa using h3
  have e : (size_t_of (int_wrap (snprintf_len env.pid_get_session.2 + 1))) =
      path_alloc_size env.pid_get_session.2 := rfl
  rw [e]
  unfold malloc
  rw [h]
  simp [alloc, world_path, world_seat, world_id]

theorem start_fail3 (env : Env) (session : wlr_session) (w : World)
    (h1 : ¬ env.pid_get_session.1 < 0)
    (h2 : ¬ (env.session_get_seat env.pid_get_session.2).1 < 0)
    (h3 : env.malloc_ok (path_alloc_size env.pid_get_session.2) = false) :
    wlr_session_start env session w =
      start_error ⟨w.next + 1, w.next + 2, 0, session.bus⟩ (world_seat env w) := by
  simp only [wlr_session_start, pid_ok env _ w h1, h1, if_false, cstr_world_id,
    seat_ok env _ w h2, h2, cstr_world_seat, malloc_fail env _ h3, if_true]

theorem sprintf_world (env : Env) (w : World) :
    sprintf (w.next + 3) env.pid_get_session.2
      { world_path env w with
        heap := (w.next + 3, ⟨path_alloc_size env.pid_get_session.2, ""⟩) ::
          (world_seat env w).heap } = world_path env w := by
  simp [sprintf, write_str, world_path]

theorem cstr_malloc_world (env : Env) (w : World) :
    cstr { world_path env w with
        heap := (w.next + 3, ⟨path_alloc_size env.pid_get_session.2, ""⟩) ::
          (world_seat env w).heap } (w.next + 1) = env.pid_get_session.2 := by
  simp [cstr, world_seat, world_id, lookup_head, lookup_skip]

theorem bus_fail (env : Env) (out : Ptr) (w : World) (h4 : env.bus_open_system < 0) :
    sd_bus_open_system env out w = (env.bus_open_system, out, w) := by
  simp [sd_bus_open_system, h4]

theorem bus_ok (env : Env) (out : Ptr) (w : World) (h4 : ¬ env.bus_open_system < 0) :
    sd_bus_open_system env out (world_path env w) =
      (env.bus_open_system, w.next + 4, world_bus env w) := by
  simp [sd_bus_open_system, h4, world_bus, world_path, world_seat, world_id]

theorem start_fail4 (env : Env) (session : wlr_session) (w : World)
    (h1 : ¬ env.pid_get_session.1 < 0)
    (h2 : ¬ (env.session_get_seat env.pid_get_session.2).1 < 0)
    (h3 : ¬ env.malloc_ok (path_alloc_size env.pid_get_session.2) = false)
    (h4 : env.bus_open_system < 0) :
    wlr_session_start env session w =
      start_error ⟨w.next + 1, w.next + 2, w.next + 3, session.bus⟩ (world_path env w) := by
  have hp : ¬ (w.next + 3 = 0) := Nat.succ_ne_zero _
  simp only [wlr_session_start, pid_ok env _ w h1, h1, if_false, cstr_world_id,
    seat_ok env _ w h2, h2, cstr_world_seat, malloc_sprintf_ok env _ h3, hp,
    cstr_malloc_world, sprintf_world, bus_fail env _ _ h4, h4, if_true]

theorem start_fail5 (env : Env) (session : wlr_session) (w : World)
    (h1 : ¬ env.pid_get_session.1 < 0)
    (h2 : ¬ (env.session_get_seat env.pid_get_session.2).1 < 0)
    (h3 : ¬ env.malloc_ok (path_alloc_size env.pid_get_session.2) = false)
    (h4 : ¬ env.bus_open_system < 0)
    (h5 : (env.call_method Member.Activate []).1 < 0) :
    wlr_session_start env session w =
      start_error_bus (session_of w)
        (rpc_world env (session_of w) Member.Activate [] (world_bus env w)) := by
  have hp : ¬ (w.next + 3 = 0) := Nat.succ_ne_zero _
  have h5b : decide ((env.call_method Member.Activate []).1 ≥ 0) = false := by
    simpa using h5
  simp only [wlr_session_start, pid_ok env _ w h1, h1, if_false, cstr_world_id,
    seat_ok env _ w h2, h2, cstr_world_seat, malloc_sprintf_ok env _ h3, hp,
    cstr_malloc_world, sprintf_world, bus_ok env _ _ h4, h4, session_activate_eq, h5b,
    Bool.not_false, if_true, session_of]

theorem start_fail6 (env : Env) (session : wlr_session) (w : World)
    (h1 : ¬ env.pid_get_session.1 < 0)
    (h2 : ¬ (env.session_get_seat env.pid_get_session.2).1 < 0)
    (h3 : ¬ env.malloc_ok (path_alloc_size env.pid_get_session.2) = false)
    (h4 : ¬ env.bus_open_system < 0)
    (h5 : ¬ (env.call_method Member.Activate []).1 < 0)
    (h6 : (env.call_method Member.TakeControl [Arg.b false]).1 < 0) :
    wlr_session_start env session w =
      start_error_bus (session_of w)
        (rpc_world env (session_of w) Member.TakeControl [Arg.b false]
          (rpc_world env (session_of w) Member.Activate [] (world_bus env w))) := by
  have hp : ¬ (w.next + 3 = 0) := Nat.succ_ne_zero _
  have h5b : decide ((env.call_method Member.Activate []).1 ≥ 0) = true := by
    simpa using h5
  have h6b : decide ((env.call_method Member.TakeControl [Arg.b false]).1 ≥ 0) = false := by
    simpa using h6
  simp only [wlr_session_start, pid_ok env _ w h1, h1, if_false, cstr_world_id,
    seat_ok env _ w h2, h2, cstr_world_seat, malloc_sprintf_ok env _ h3, hp,
    cstr_malloc_world, sprintf_world, bus_ok env _ _ h4, h4, session_activate_eq, h5b,
    take_control_eq, h6b, Bool.not_false, Bool.not_true, if_true, session_of]
  simp

theorem start_ok (env : Env) (session : wlr_session) (w : World)
    (h1 : ¬ env.pid_get_session.1 < 0)
    (h2 : ¬ (env.session_get_seat env.pid_get_session.2).1 < 0)
    (h3 : ¬ env.malloc_ok (path_alloc_size env.pid_get_session.2) = false)
    (h4 : ¬ env.bus_open_system < 0)
    (h5 : ¬ (env.call_method Member.Activate []).1 < 0)
    (h6 : ¬ (env.call_method Member.TakeControl [Arg.b false]).1 < 0) :
    wlr_session_start env session w =
      (true, session_of w,
        rpc_world env (session_of w) Member.TakeControl [Arg.b false]
          (rpc_world env (session_of w) Member.Activate [] (world_bus env w))) := by
  have hp : ¬ (w.next + 3 = 0) := Nat.succ_ne_zero _
  have h5b : decide ((env.call_method Member.Activate []).1 ≥ 0) = true := by
    simpa using h5
  have h6b : decide ((env.call_method Member.TakeControl [Arg.b false]).1 ≥ 0) = true := by
    simpa using h6
  simp only [wlr_session_start, pid_ok env _ w h1, h1, if_false, cstr_world_id,
    seat_ok env _ w h2, h2, cstr_world_seat, malloc_sprintf_ok env _ h3, hp,
    cstr_malloc_world, sprintf_world, bus_ok env _ _ h4, h4, session_activate_eq, h5b,
    take_control_eq, h6b, Bool.not_false, Bool.not_true, if_true, session_of]
  simp

theorem start_error_flag (session : wlr_session) (w : World) :
    (start_error session w).1 = false ∧ (start_error session w).2.1 = session := by
  simp [start_error]

theorem start_error_trace (session : wlr_session) (w : World) :
    (start_error session w).2.2.trace =
      w.trace ++ [Event.free session.path, Event.free session.id, Event.free session.seat] := by
  unfold start_error free
  by_cases hp : session.path = 0 <;> by_cases hi : session.id = 0 <;>
    by_cases hs : session.seat = 0 <;> simp [hp, hi, hs]

theorem start_error_buses (session : wlr_session) (w : World) :
    (start_error session w).2.2.buses = w.buses := by
  unfold start_error free
  by_cases hp : session.path = 0 <;> by_cases hi : session.id = 0 <;>
    by_cases hs : session.seat = 0 <;> simp [hp, hi, hs]

theorem start_error_bus_flag (session : wlr_session) (w : World) :
    (start_error_bus session w).1 = false ∧ (start_error_bus session w).2.1 = session := by
  simp [start_error_bus, start_error]

theorem start_error_bus_trace (session : wlr_session) (w : World) :
    (start_error_bus session w).2.2.trace =
      w.trace ++ [Event.bus_unref session.bus, Event.free session.path,
        Event.free session.id, Event.free session.seat] := by
  unfold start_error_bus
  rw [start_error_trace]
  unfold sd_bus_unref
  by_cases hb : session.bus = 0 <;> simp [hb]

theorem unwind_heap3 (w : World) (n : Nat) (h0 : List (Ptr × Block)) (bi bs bp : Block)
    (bus : Ptr) (hh : w.heap = (n + 3, bp) :: (n + 2, bs) :: (n + 1, bi) :: h0) :
    (start_error ⟨n + 1, n + 2, n + 3, bus⟩ w).2.2.heap = h0 := by
  simp [start_error, free, hh, erase_head, erase_skip]

theorem unwind_heap2 (w : World) (n : Nat) (h0 : List (Ptr × Block)) (bi bs : Block)
    (bus : Ptr) (hh : w.heap = (n + 2, bs) :: (n + 1, bi) :: h0) :
    (start_error ⟨n + 1, n + 2, 0, bus⟩ w).2.2.heap = h0 := by
  simp [start_error, free, hh, erase_head, erase_skip]

theorem unwind_heap1 (w : World) (n : Nat) (h0 : List (Ptr × Block)) (bi : Block)
    (bus : Ptr) (hh : w.heap = (n + 1, bi) :: h0) :
    (start_error ⟨n + 1, 0, 0, bus⟩ w).2.2.heap = h0 := by
  simp [start_error, free, hh, erase_head]

theorem unwind_heap0 (w : World) (bus : Ptr) :
    (start_error ⟨0, 0, 0, bus⟩ w).2.2.heap = w.heap := by
  simp [start_error, free]

theorem unwind_bus (session : wlr_session) (w : World) (b0 : List Ptr)
    (hne : session.bus ≠ 0) (hb : w.buses = session.bus :: b0) :
    (start_error_bus session w).2.2.buses = b0 := by
  unfold start_error_bus
  rw [start_error_buses]
  simp [sd_bus_unref, hne, hb]

theorem unwind_bus_heap (session : wlr_session) (w : World) :
    (start_error_bus session w).2.2.heap = (start_error session w).2.2.heap := by
  unfold start_error_bus start_error sd_bus_unref free
  by_cases hb : session.bus = 0 <;>
  by_cases hp : session.path = 0 <;> by_cases hi : session.id = 0 <;>
    by_cases hs : session.seat = 0 <;> simp [hp, hi, hs, hb]

theorem start_flag_false (env : Env) (session : wlr_session) (w : World)
    (hfail : start_step_fails env) : (wlr_session_start env session w).1 = false := by
  by_cases h1 : env.pid_get_session.1 < 0
  · rw [start_fail1 env _ w h1]; exact (start_error_flag _ _).1
  by_cases h2 : (env.session_get_seat env.pid_get_session.2).1 < 0
  · rw [start_fail2 env _ w h1 h2]; exact (start_error_flag _ _).1
  by_cases h3 : env.malloc_ok (path_alloc_size env.pid_get_session.2) = false
  · rw [start_fail3 env _ w h1 h2 h3]; exact (start_error_flag _ _).1
  by_cases h4 : env.bus_open_system < 0
  · rw [start_fail4 env _ w h1 h2 h3 h4]; exact (start_error_flag _ _).1
  by_cases h5 : (env.call_method Member.Activate []).1 < 0
  · rw [start_fail5 env _ w h1 h2 h3 h4 h5]; exact (start_error_bus_flag _ _).1
  by_cases h6 : (env.call_method Member.TakeControl [Arg.b false]).1 < 0
  · rw [start_fail6 env _ w h1 h2 h3 h4 h5 h6]; exact (start_error_bus_flag _ _).1
  · exfalso
    unfold start_step_fails at hfail
    tauto

theorem start_restores (env : Env) (w : World) (hfail : start_step_fails env) :
    (wlr_session_start env empty_session w).2.2.heap = w.heap ∧
    (wlr_session_start env empty_session w).2.2.buses = w.buses := by
  by_cases h1 : env.pid_get_session.1 < 0
  · rw [start_fail1 env _ w h1]
    exact ⟨unwind_heap0 _ _, start_error_buses _ _⟩
  by_cases h2 : (env.session_get_seat env.pid_get_session.2).1 < 0
  · rw [start_fail2 env _ w h1 h2]
    exact ⟨unwind_heap1 _ _ _ _ _ rfl, start_error_buses _ _⟩
  by_cases h3 : env.malloc_ok (path_alloc_size env.pid_get_session.2) = false
  · rw [start_fail3 env _ w h1 h2 h3]
    exact ⟨unwind_heap2 _ _ _ _ _ _ rfl, start_error_buses _ _⟩
  by_cases h4 : env.bus_open_system < 0
  · rw [start_fail4 env _ w h1 h2 h3 h4]
    exact ⟨unwind_heap3 _ _ _ _ _ _ _ rfl, start_error_buses _ _⟩
  by_cases h5 : (env.call_method Member.Activate []).1 < 0
  · rw [start_fail5 env _ w h1 h2 h3 h4 h5]
    refine ⟨?_, ?_⟩
    · rw [unwind_bus_heap]
      exact unwind_heap3 _ _ _ _ _ _ _ (by rw [rpc_world_heap]; rfl)
    · exact unwind_bus _ _ _ (Nat.succ_ne_zero _) (by rw [rpc_world_buses]; rfl)
  by_cases h6 : (env.call_method Member.TakeControl [Arg.b false]).1 < 0
  · rw [start_fail6 env _ w h1 h2 h3 h4 h5 h6]
    refine ⟨?_, ?_⟩
    · rw [unwind_bus_heap]
      exact unwind_heap3 _ _ _ _ _ _ _ (by rw [rpc_world_heap, rpc_world_heap]; rfl)
    · exact unwind_bus _ _ _ (Nat.succ_ne_zero _)
        (by rw [rpc_world_buses, rpc_world_buses]; rfl)
  · exfalso
    unfold start_step_fails at hfail
    tauto

theorem lookup_none_of_keys (l : List (Ptr × Block)) (p : Ptr) (h : ∀ e ∈ l, e.1 ≠ p) :
    l.lookup p = none := by
  induction l with
  | nil => rfl
  | cons e t ih =>
    have he : p ≠ e.1 := fun hpe => h e (List.mem_cons_self _ _) hpe.symm
    obtain ⟨q, b⟩ := e
    rw [lookup_skip p q b t he]
    exact ih (fun e' he' => h e' (List.mem_cons_of_mem _ he'))

theorem start_events_on_fail5 (env : Env) (session : wlr_session) (w : World)
    (h1 : ¬ env.pid_get_session.1 < 0)
    (h2 : ¬ (env.session_get_seat env.pid_get_session.2).1 < 0)
    (h3 : ¬ env.malloc_ok (path_alloc_size env.pid_get_session.2) = false)
    (h4 : ¬ env.bus_open_system < 0)
    (h5 : (env.call_method Member.Activate []).1 < 0) :
    start_events_on env session w =
      [Event.alloc (w.next + 1), Event.alloc (w.next + 2), Event.alloc (w.next + 3),
        Event.bus_open (w.next + 4)] ++
      exchange env (session_of w) Member.Activate [] ++
      [Event.bus_unref (w.next + 4),
        Event.free (w.next + 3), Event.free (w.next + 1), Event.free (w.next + 2)] := by
  unfold start_events_on
  apply new_events_append
  rw [start_fail5 env _ w h1 h2 h3 h4 h5, start_error_bus_trace, rpc_world_trace]
  simp [world_bus, world_path, world_seat, world_id, session_of]

theorem start_events_on_fail6 (env : Env) (session : wlr_session) (w : World)
    (h1 : ¬ env.pid_get_session.1 < 0)
    (h2 : ¬ (env.session_get_seat env.pid_get_session.2).1 < 0)
    (h3 : ¬ env.malloc_ok (path_alloc_size env.pid_get_session.2) = false)
    (h4 : ¬ env.bus_open_system < 0)
    (h5 : ¬ (env.call_method Member.Activate []).1 < 0)
    (h6 : (env.call_method Member.TakeControl [Arg.b false]).1 < 0) :
    start_events_on env session w =
      [Event.alloc (w.next + 1), Event.alloc (w.next + 2), Event.alloc (w.next + 3),
        Event.bus_open (w.next + 4)] ++
      exchange env (session_of w) Member.Activate [] ++
      exchange env (session_of w) Member.TakeControl [Arg.b false] ++
      [Event.bus_unref (w.next + 4),
        Event.free (w.next + 3), Event.free (w.next + 1), Event.free (w.next + 2)] := by
  unfold start_events_on
  apply new_events_append
  rw [start_fail6 env _ w h1 h2 h3 h4 h5 h6, start_error_bus_trace, rpc_world_trace,
    rpc_world_trace]
  simp [world_bus, world_path, world_seat, world_id, session_of]

theorem start_events_on_ok (env : Env) (session : wlr_session) (w : World)
    (h1 : ¬ env.pid_get_session.1 < 0)
    (h2 : ¬ (env.session_get_seat env.pid_get_session.2).1 < 0)
    (h3 : ¬ env.malloc_ok (path_alloc_size env.pid_get_session.2) = false)
    (h4 : ¬ env.bus_open_system < 0)
    (h5 : ¬ (env.call_method Member.Activate []).1 < 0)
    (h6 : ¬ (env.call_method Member.TakeControl [Arg.b false]).1 < 0) :
    start_events_on env session w =
      [Event.alloc (w.next + 1), Event.alloc (w.next + 2), Event.alloc (w.next + 3),
        Event.bus_open (w.next + 4)] ++
      exchange env (session_of w) Member.Activate [] ++
      exchange env (session_of w) Member.TakeControl [Arg.b false] := by
  unfold start_events_on
  apply new_events_append
  rw [start_ok env _ w h1 h2 h3 h4 h5 h6, rpc_world_trace, rpc_world_trace]
  simp [world_bus, world_path, world_seat, world_id, session_of]

theorem started_heap (env : Env) (w : World) :
    (rpc_world env (session_of w) Member.TakeControl [Arg.b false]
      (rpc_world env (session_of w) Member.Activate [] (world_bus env w))).heap =
    (w.next + 3, ⟨path_alloc_size env.pid_get_session.2,
        session_fmt ++ env.pid_get_session.2⟩) ::
    (w.next + 2, ⟨(env.session_get_seat env.pid_get_session.2).2.length + 1,
        (env.session_get_seat env.pid_get_session.2).2⟩) ::
    (w.next + 1, ⟨env.pid_get_session.2.length + 1, env.pid_get_session.2⟩) :: w.heap := by
  rw [rpc_world_heap, rpc_world_heap]
  rfl

theorem started_buses (env : Env) (w : World) :
    (rpc_world env (session_of w) Member.TakeControl [Arg.b false]
      (rpc_world env (session_of w) Member.Activate [] (world_bus env w))).buses =
    (w.next + 4) :: w.buses := by
  rw [rpc_world_buses, rpc_world_buses]
  rfl

theorem alloc_size_at_int_max :
    size_t_of (int_wrap (INT_MAX + 1)) = 18446744071562067968 ∧
    size_t_of (int_wrap ((INT_MAX - 1) + 1)) = 2147483647 := by
  decide

theorem path_alloc_size_eq (id : String)
    (hlen : ((session_fmt ++ id).length : Int) < INT_MAX) :
    path_alloc_size id = (session_fmt ++ id).length + 1 := by
  have hle : ((session_fmt ++ id).length : Int) ≤ INT_MAX := Int.le_of_lt hlen
  unfold path_alloc_size snprintf_len size_t_of int_wrap
  simp only [hle, if_true]
  unfold INT_MAX at hlen
  omega

theorem assoc_head {β : Type} (k : Nat) (v : β) (l : List (Nat × β)) :
    List.lookup k ((k, v) :: l) = some v := by
  simp [List.lookup]

theorem assoc_skip {β : Type} (k q : Nat) (v : β) (l : List (Nat × β)) (hne : k ≠ q) :
    List.lookup k ((q, v) :: l) = List.lookup k l := by
  have : (k == q) = false := by simpa using hne
  simp [List.lookup, this]

theorem assoc_none {β : Type} (l : List (Nat × β)) (k : Nat) (h : ∀ e ∈ l, e.1 ≠ k) :
    l.lookup k = none := by
  induction l with
  | nil => rfl
  | cons e t ih =>
    have he : k ≠ e.1 := fun hke => h e (List.mem_cons_self _ _) hke.symm
    obtain ⟨q, v⟩ := e
    rw [assoc_skip k q v t he]
    exact ih (fun e' he' => h e' (List.mem_cons_of_mem _ he'))

theorem assoc_keys_of_none {β : Type} (l : List (Nat × β)) (k : Nat)
    (h : l.lookup k = none) : ∀ e ∈ l, e.1 ≠ k := by
  induction l with
  | nil => intro e he; cases he
  | cons a t ih =>
    obtain ⟨q, v⟩ := a
    by_cases hq : k = q
    · subst hq
      rw [assoc_head] at h
      cases h
    · rw [assoc_skip k q v t hq] at h
      intro e he
      rcases List.mem_cons.mp he with h1 | h1
      · rw [h1]
        exact fun hh => hq hh.symm
      · exact ih h e h1

theorem close_fds_closed (m : Msg) (fds : List (Nat × Nat)) (k : Nat)
    (hk : k ∈ (msg_fds m).map Prod.fst) : (close_fds m fds).lookup k = none := by
  apply assoc_none
  intro e he hek
  unfold close_fds at he
  rw [List.mem_filter] at he
  have h2 := he.2
  rw [hek] at h2
  have hc : ((msg_fds m).map Prod.fst).contains k = true := by
    simpa using hk
  rw [hc] at h2
  exact Bool.noConfusion h2

theorem close_fds_keeps (m : Msg) (fds : List (Nat × Nat)) (k v : Nat)
    (hk : k ∉ (msg_fds m).map Prod.fst) :
    (close_fds m ((k, v) :: fds)).lookup k = some v := by
  unfold close_fds
  have hc : (!((msg_fds m).map Prod.fst).contains k) = true := by
    simpa using hk
  rw [List.filter_cons_of_pos (by simpa using hc)]
  exact assoc_head _ _ _

theorem take_device_error_eq (fd : Int) (msg : Option Msg) (po : Option Bool) (w : World) :
    (take_device_error fd msg po w).1 = fd ∧
    (take_device_error fd msg po w).2.1 = po ∧
    (take_device_error fd msg po w).2.2.trace =
      w.trace ++ [Event.error_free, Event.message_unref msg] := by
  unfold take_device_error sd_bus_message_unref sd_bus_error_free
  cases msg <;> simp

theorem take_device_error_fds (fd : Int) (m : Msg) (po : Option Bool) (w : World) :
    (take_device_error fd (some m) po w).2.2.fds = close_fds m w.fds := by
  simp [take_device_error, sd_bus_message_unref, sd_bus_error_free, close_fds]

theorem dupfd_trace (fd : Int) (w : World) : (fcntl_dupfd_cloexec fd w).2.trace = w.trace := by
  unfold fcntl_dupfd_cloexec
  split
  · rfl
  · split
    · rfl
    · split <;> rfl

theorem call_fail (env : Env) (bus : Ptr) (d : String) (path : Ptr) (i : String)
    (member : Member) (args : List Arg) (w : World)
    (h : (env.call_method member args).1 < 0) :
    sd_bus_call_method env bus d path i member args w =
      ((env.call_method member args).1, none,
        { w with trace := w.trace ++ [Event.call bus d path i member args] }) := by
  simp [sd_bus_call_method, h]

theorem call_ok (env : Env) (bus : Ptr) (d : String) (path : Ptr) (i : String)
    (member : Member) (args : List Arg) (w : World)
    (h : ¬ (env.call_method member args).1 < 0) :
    sd_bus_call_method env bus d path i member args w =
      ((env.call_method member args).1, some (env.call_method member args).2,
        { w with trace := w.trace ++ [Event.call bus d path i member args],
                 fds := msg_fds (env.call_method member args).2 ++ w.fds }) := by
  simp [sd_bus_call_method, h]

theorem dupfd_open (r rdev : Nat) (w : World) (hopen : w.fds.lookup r = some rdev) :
    fcntl_dupfd_cloexec (r : Int) w = (-1, w) ∨
    ∃ k : Nat, w.fds.lookup k = none ∧
      fcntl_dupfd_cloexec (r : Int) w = ((k : Int), { w with fds := (k, rdev) :: w.fds }) := by
  unfold fcntl_dupfd_cloexec
  have h0 : ¬ ((r : Int) < 0) := by omega
  simp only [h0, if_false, Int.toNat_ofNat, hopen]
  cases hf : (List.range w.nofile).find? (fun k => (w.fds.lookup k).isNone) with
  | none => exact Or.inl rfl
  | some k =>
    right
    refine ⟨k, ?_, rfl⟩
    have := List.find?_some hf
    simpa using this

theorem take_success (env : Env) (session : wlr_session) (path : String)
    (po : Option Bool) (w : World) (r rdev : Nat) (p : Bool) (rest : Msg)
    (hstat : ¬ (env.stat path).1 < 0)
    (hcall : ¬ (env.call_method Member.TakeDevice (dev_args (env.stat path).2)).1 < 0)
    (hreply : (env.call_method Member.TakeDevice (dev_args (env.stat path).2)).2 =
      Item.h r rdev :: Item.b p :: rest)
    (hdup : (wlr_session_take_device env session path po w).1 ≠ -1) :
    ∃ k : Nat,
      (msg_fds (Item.h r rdev :: Item.b p :: rest) ++ w.fds).lookup k = none ∧
      (wlr_session_take_device env session path po w).1 = (k : Int) ∧
      (wlr_session_take_device env session path po w).2.1 = po.map (fun _ => p) ∧
      (wlr_session_take_device env session path po w).2.2.fds =
        close_fds (Item.h r rdev :: Item.b p :: rest)
          ((k, rdev) :: (msg_fds (Item.h r rdev :: Item.b p :: rest) ++ w.fds)) ∧
      (wlr_session_take_device env session path po w).2.2.trace =
        w.trace ++ exchange env session Member.TakeDevice (dev_args (env.stat path).2) := by
  have hcall2 : ¬ (env.call_method Member.TakeDevice
      [Arg.u (major (env.stat path).2), Arg.u (minor (env.stat path).2)]).1 < 0 := hcall
  have hreply2 : (env.call_method Member.TakeDevice
      [Arg.u (major (env.stat path).2), Arg.u (minor (env.stat path).2)]).2 =
      Item.h r rdev :: Item.b p :: rest := hreply
  have hrep : reply env Member.TakeDevice (dev_args (env.stat path).2) =
      some (Item.h r rdev :: Item.b p :: rest) := by
    unfold reply
    rw [if_neg hcall, hreply]
  have hread : sd_bus_message_read_hb (some (Item.h r rdev :: Item.b p :: rest)) (-1) 0 =
      (1, (r : Int), if p then 1 else 0) := rfl
  have hflag : po.map (fun _ => decide ((if p then (1 : Int) else 0) ≠ 0)) =
      po.map (fun _ => p) := by
    cases p <;> simp
  have hone : ¬ ((1 : Int) < 0) := by omega
  unfold wlr_session_take_device at hdup ⊢
  simp only [hstat, if_false, call_ok env _ _ _ _ _ _ w hcall2, hcall2, hreply2, hread,
    hone] at hdup ⊢
  have hopen : ({ w with
      trace := w.trace ++ [Event.call session.bus "org.freedesktop.login1" session.path
        "org.freedesktop.login1.Session" Member.TakeDevice
        [Arg.u (major (env.stat path).2), Arg.u (minor (env.stat path).2)]],
      fds := msg_fds (Item.h r rdev :: Item.b p :: rest) ++ w.fds } : World).fds.lookup r =
      some rdev := by
    simp [msg_fds, assoc_head]
  rcases dupfd_open r rdev _ hopen with hd | ⟨k, hk, hd⟩
  · rw [hd] at hdup
    simp [take_device_error] at hdup
  · rw [hd]
    have hkne : ¬ ((k : Int) = -1) := by omega
    simp only [hkne, if_false]
    refine ⟨k, hk, (take_device_error_eq _ _ _ _).1, ?_, ?_, ?_⟩
    · rw [(take_device_error_eq _ _ _ _).2.1, hflag]
    · rw [take_device_error_fds]
    · rw [(take_device_error_eq _ _ _ _).2.2]
      simp only [exchange, hrep, List.append_assoc, List.singleton_append]
      rfl

theorem start_events_on_fail1 (env : Env) (session : wlr_session) (w : World)
    (h1 : env.pid_get_session.1 < 0) :
    start_events_on env session w =
      [Event.free session.path, Event.free session.id, Event.free session.seat] := by
  unfold start_events_on
  apply new_events_append
  rw [start_fail1 env _ w h1, start_error_trace]

theorem start_events_on_fail2 (env : Env) (session : wlr_session) (w : World)
    (h1 : ¬ env.pid_get_session.1 < 0)
    (h2 : (env.session_get_seat env.pid_get_session.2).1 < 0) :
    start_events_on env session w =
      [Event.alloc (w.next + 1), Event.free session.path, Event.free (w.next + 1),
        Event.free session.seat] := by
  unfold start_events_on
  apply new_events_append
  rw [start_fail2 env _ w h1 h2, start_error_trace]
  simp [world_id]

theorem start_events_on_fail3 (env : Env) (session : wlr_session) (w : World)
    (h1 : ¬ env.pid_get_session.1 < 0)
    (h2 : ¬ (env.session_get_seat env.pid_get_session.2).1 < 0)
    (h3 : env.malloc_ok (path_alloc_size env.pid_get_session.2) = false) :
    start_events_on env session w =
      [Event.alloc (w.next + 1), Event.alloc (w.next + 2), Event.free 0,
        Event.free (w.next + 1), Event.free (w.next + 2)] := by
  unfold start_events_on
  apply new_events_append
  rw [start_fail3 env _ w h1 h2 h3, start_error_trace]
  simp [world_seat, world_id]

theorem start_events_on_fail4 (env : Env) (session : wlr_session) (w : World)
    (h1 : ¬ env.pid_get_session.1 < 0)
    (h2 : ¬ (env.session_get_seat env.pid_get_session.2).1 < 0)
    (h3 : ¬ env.malloc_ok (path_alloc_size env.pid_get_session.2) = false)
    (h4 : env.bus_open_system < 0) :
    start_events_on env session w =
      [Event.alloc (w.next + 1), Event.alloc (w.next + 2), Event.alloc (w.next + 3),
        Event.free (w.next + 3), Event.free (w.next + 1), Event.free (w.next + 2)] := by
  unfold start_events_on
  apply new_events_append
  rw [start_fail4 env _ w h1 h2 h3 h4, start_error_trace]
  simp [world_path, world_seat, world_id]

theorem take_trace (env : Env) (session : wlr_session) (path : String)
    (po : Option Bool) (w : World) (hstat : ¬ (env.stat path).1 < 0) :
    (wlr_session_take_device env session path po w).2.2.trace =
      w.trace ++ exchange env session Member.TakeDevice (dev_args (env.stat path).2) := by
  unfold wlr_session_take_device
  simp only [hstat, if_false]
  by_cases hcall : (env.call_method Member.TakeDevice
      [Arg.u (major (env.stat path).2), Arg.u (minor (env.stat path).2)]).1 < 0
  · have hrep : reply env Member.TakeDevice (dev_args (env.stat path).2) = none := by
      unfold reply
      exact if_pos hcall
    simp only [call_fail env _ _ _ _ _ _ w hcall, hcall, if_true]
    rw [(take_device_error_eq _ _ _ _).2.2]
    simp only [exchange, hrep, List.append_assoc, List.singleton_append]
    rfl
  · have hrep : reply env Member.TakeDevice (dev_args (env.stat path).2) =
        some (env.call_method Member.TakeDevice (dev_args (env.stat path).2)).2 := by
      unfold reply
      exact if_neg hcall
    simp only [call_ok env _ _ _ _ _ _ w hcall, hcall, if_false]
    split
    · rw [(take_device_error_eq _ _ _ _).2.2]
      simp only [exchange, hrep, List.append_assoc, List.singleton_append]
      rfl
    · split
      · rw [(take_device_error_eq _ _ _ _).2.2, dupfd_trace]
        simp only [exchange, hrep, List.append_assoc, List.singleton_append]
        rfl
      · rw [(take_device_error_eq _ _ _ _).2.2, dupfd_trace]
        simp only [exchange, hrep, List.append_assoc, List.singleton_append]
        rfl

theorem take_stat_fail (env : Env) (session : wlr_session) (path : String)
    (po : Option Bool) (w : World) (hstat : (env.stat path).1 < 0) :
    wlr_session_take_device env session path po w = (-1, po, w) := by
  unfold wlr_session_take_device
  simp only [hstat, if_true]

theorem release_fstat_fail (env : Env) (session : wlr_session) (fd : Int) (w : World)
    (hstat : (fstat fd w).1 < 0) :
    wlr_session_release_device env session fd w = w := by
  unfold wlr_session_release_device
  simp only [hstat, if_true]

theorem release_fstat_ok (env : Env) (session : wlr_session) (fd : Int) (w : World)
    (hstat : ¬ (fstat fd w).1 < 0) :
    wlr_session_release_device env session fd w =
      rpc_world env session Member.ReleaseDevice (dev_args (fstat fd w).2) w := by
  unfold wlr_session_release_device
  simp only [hstat, if_false]
  rfl

theorem new_events_self (w : World) : new_events w w = [] := by
  simp [new_events]

theorem wlr_session_end_trace (env : Env) (session : wlr_session) (w : World) :
    (wlr_session_end env session w).trace =
      w.trace ++ exchange env session Member.ReleaseControl [] ++
        [Event.bus_unref session.bus, Event.free session.id, Event.free session.path,
          Event.free session.seat] := by
  unfold wlr_session_end
  rw [release_control_eq]
  unfold sd_bus_unref free
  by_cases hb : session.bus = 0 <;> by_cases hp : session.path = 0 <;>
    by_cases hi : session.id = 0 <;> by_cases hs : session.seat = 0 <;>
    simp [hp, hi, hs, hb, rpc_world_trace]

theorem read_hb_no_fd (m : Msg) (fd paused : Int)
    (h : ∀ r rdev rest, m ≠ Item.h r rdev :: rest) :
    sd_bus_message_read_hb (some m) fd paused = (-6, fd, paused) := by
  cases m with
  | nil => rfl
  | cons a t =>
    cases a with
    | h r rdev => exact absurd rfl (h r rdev t)
    | b v => rfl
    | u n => rfl

theorem read_hb_no_flag (r rdev : Nat) (rest : Msg) (fd paused : Int)
    (h : ∀ p rest', rest ≠ Item.b p :: rest') :
    sd_bus_message_read_hb (some (Item.h r rdev :: rest)) fd paused = (-6, (r : Int), paused) := by
  cases rest with
  | nil => rfl
  | cons a t =>
    cases a with
    | h r' rdev' => rfl
    | b v => exact absurd rfl (h v t)
    | u n => rfl

theorem take_failure_values (env : Env) (session : wlr_session) (path : String)
    (po : Option Bool) (w : World) :
    ((env.stat path).1 < 0 → (wlr_session_take_device env session path po w).1 = -1) ∧
    (¬ (env.stat path).1 < 0 →
      (env.call_method Member.TakeDevice (dev_args (env.stat path).2)).1 < 0 →
      (wlr_session_take_device env session path po w).1 = -1) ∧
    (¬ (env.stat path).1 < 0 →
      ¬ (env.call_method Member.TakeDevice (dev_args (env.stat path).2)).1 < 0 →
      (∀ r rdev rest, (env.call_method Member.TakeDevice (dev_args (env.stat path).2)).2 ≠
        Item.h r rdev :: rest) →
      (wlr_session_take_device env session path po w).1 = -1) ∧
    (∀ r rdev rest, ¬ (env.stat path).1 < 0 →
      ¬ (env.call_method Member.TakeDevice (dev_args (env.stat path).2)).1 < 0 →
      (env.call_method Member.TakeDevice (dev_args (env.stat path).2)).2 =
        Item.h r rdev :: rest →
      (∀ p rest', rest ≠ Item.b p :: rest') →
      (wlr_session_take_device env session path po w).1 = (r : Int)) := by
  refine ⟨fun h => by rw [take_stat_fail env session path po w h], fun hstat hcall => ?_,
    fun hstat hcall hno => ?_, fun r rdev rest hstat hcall hreply hno => ?_⟩
  · have hcall2 : (env.call_method Member.TakeDevice
        [Arg.u (major (env.stat path).2), Arg.u (minor (env.stat path).2)]).1 < 0 := hcall
    unfold wlr_session_take_device
    simp only [hstat, if_false, call_fail env _ _ _ _ _ _ w hcall2, hcall2, if_true]
    exact (take_device_error_eq _ _ _ _).1
  · have hcall2 : ¬ (env.call_method Member.TakeDevice
        [Arg.u (major (env.stat path).2), Arg.u (minor (env.stat path).2)]).1 < 0 := hcall
    have hread := read_hb_no_fd (env.call_method Member.TakeDevice
        [Arg.u (major (env.stat path).2), Arg.u (minor (env.stat path).2)]).2 (-1) 0 hno
    have hneg : ((-6 : Int) < 0) := by omega
    unfold wlr_session_take_device
    simp only [hstat, if_false, call_ok env _ _ _ _ _ _ w hcall2, hcall2, hread, hneg, if_true]
    exact (take_device_error_eq _ _ _ _).1
  · have hcall2 : ¬ (env.call_method Member.TakeDevice
        [Arg.u (major (env.stat path).2), Arg.u (minor (env.stat path).2)]).1 < 0 := hcall
    have hreply2 : (env.call_method Member.TakeDevice
        [Arg.u (major (env.stat path).2), Arg.u (minor (env.stat path).2)]).2 =
        Item.h r rdev :: rest := hreply
    have hread := read_hb_no_flag r rdev rest (-1) 0 hno
    have hneg : ((-6 : Int) < 0) := by omega
    unfold wlr_session_take_device
    simp only [hstat, if_false, call_ok env _ _ _ _ _ _ w hcall2, hcall2, hreply2, hread, hneg,
      if_true]
    exact (take_device_error_eq _ _ _ _).1

theorem take_duplicate_facts (env : Env) (session : wlr_session) (path : String)
    (po : Option Bool) (w : World) (r rdev : Nat) (p : Bool) (rest : Msg)
    (hstat : ¬ (env.stat path).1 < 0)
    (hcall : ¬ (env.call_method Member.TakeDevice (dev_args (env.stat path).2)).1 < 0)
    (hreply : (env.call_method Member.TakeDevice (dev_args (env.stat path).2)).2 =
      Item.h r rdev :: Item.b p :: rest)
    (hdup : (wlr_session_take_device env session path po w).1 ≠ -1) :
    0 ≤ (wlr_session_take_device env session path po w).1 ∧
    (wlr_session_take_device env session path po w).1 ≠ (r : Int) ∧
    (wlr_session_take_device env session path po w).2.1 = po.map (fun _ => p) ∧
    (wlr_session_take_device env session path po w).2.2.fds.lookup
      (wlr_session_take_device env session path po w).1.toNat = some rdev ∧
    (wlr_session_take_device env session path po w).2.2.fds.lookup r = none := by
  obtain ⟨k, hk, hfd, hflag, hfds, _⟩ :=
    take_success env session path po w r rdev p rest hstat hcall hreply hdup
  have hkeys := assoc_keys_of_none _ k hk
  have hkr : k ≠ r := by
    intro h
    exact hkeys (r, rdev) (by simp [msg_fds]) h.symm
  have hknot : k ∉ (msg_fds (Item.h r rdev :: Item.b p :: rest)).map Prod.fst := by
    intro hmem
    obtain ⟨e, he, hek⟩ := List.mem_map.mp hmem
    exact hkeys e (List.mem_append_left _ he) hek
  have hrin : r ∈ (msg_fds (Item.h r rdev :: Item.b p :: rest)).map Prod.fst := by
    simp [msg_fds]
  rw [hfd, hfds]
  refine ⟨by omega, by omega, hflag, ?_, close_fds_closed _ _ r hrin⟩
  rw [Int.toNat_ofNat]
  exact close_fds_keeps _ _ k rdev hknot

theorem start_handle_populated (env : Env) (session : wlr_session) (w : World)
    (h1 : ¬ env.pid_get_session.1 < 0)
    (h2 : ¬ (env.session_get_seat env.pid_get_session.2).1 < 0)
    (h3 : ¬ env.malloc_ok (path_alloc_size env.pid_get_session.2) = false)
    (h4 : ¬ env.bus_open_system < 0) :
    (wlr_session_start env session w).2.1 = session_of w := by
  by_cases h5 : (env.call_method Member.Activate []).1 < 0
  · rw [start_fail5 env _ w h1 h2 h3 h4 h5]
    exact (start_error_bus_flag _ _).2
  by_cases h6 : (env.call_method Member.TakeControl [Arg.b false]).1 < 0
  · rw [start_fail6 env _ w h1 h2 h3 h4 h5 h6]
    exact (start_error_bus_flag _ _).2
  · rw [start_ok env _ w h1 h2 h3 h4 h5 h6]

theorem rpc_events_exchange (env : Env) (session : wlr_session) (member : Member)
    (args : List Arg) :
    rpc_events (exchange env session member args) = exchange env session member args := by
  simp [rpc_events, exchange]

theorem wlr_session_end_state (env : Env) (session : wlr_session) (w : World) :
    (wlr_session_end env session w).heap =
      (free session.seat (free session.path (free session.id
        (sd_bus_unref session.bus w)))).heap ∧
    (wlr_session_end env session w).buses =
      (free session.seat (free session.path (free session.id
        (sd_bus_unref session.bus w)))).buses := by
  unfold wlr_session_end
  rw [release_control_eq]
  unfold sd_bus_unref free
  by_cases hb : session.bus = 0 <;> by_cases hp : session.path = 0 <;>
    by_cases hi : session.id = 0 <;> by_cases hs : session.seat = 0 <;>
    simp [hp, hi, hs, hb, rpc_world_heap, rpc_world_buses]

theorem heap_ok_cons (h : List (Ptr × Block)) (n q : Ptr) (b : Block)
    (hok : heap_ok h n) (hq : n < q) : heap_ok ((q, b) :: h) q := by
  refine ⟨?_, ?_⟩
  · rw [List.map_cons, List.nodup_cons]
    refine ⟨?_, hok.1⟩
    intro hmem
    obtain ⟨e, he, heq⟩ := List.mem_map.mp hmem
    have hle := (hok.2 e he).2
    rw [heq] at hle
    exact Nat.lt_irrefl _ (Nat.lt_of_le_of_lt hle hq)
  · intro e he
    rcases List.mem_cons.mp he with h1 | h1
    · rw [h1]
      exact ⟨Nat.lt_of_le_of_lt (Nat.zero_le n) hq, Nat.le_refl q⟩
    · exact ⟨(hok.2 e h1).1, Nat.le_of_lt (Nat.lt_of_le_of_lt (hok.2 e h1).2 hq)⟩

theorem heap_ok_erase (h : List (Ptr × Block)) (n p : Ptr) (hok : heap_ok h n) :
    heap_ok (h.eraseP (fun e => e.1 == p)) n := by
  refine ⟨?_, fun e he => hok.2 e (List.mem_of_mem_eraseP he)⟩
  exact List.Nodup.sublist (List.Sublist.map Prod.fst (List.eraseP_sublist h)) hok.1

theorem erase_lookup_self (h : List (Ptr × Block)) (p : Ptr)
    (hnd : (h.map Prod.fst).Nodup) :
    (h.eraseP (fun e => e.1 == p)).lookup p = none := by
  induction h with
  | nil => rfl
  | cons a t ih =>
    obtain ⟨q, b⟩ := a
    rw [List.map_cons, List.nodup_cons] at hnd
    by_cases hq : q = p
    · subst hq
      rw [erase_head]
      apply lookup_none_of_keys
      intro e he heq
      exact hnd.1 (List.mem_map.mpr ⟨e, he, heq⟩)
    · rw [erase_skip p q b t hq, lookup_skip p q b _ (fun hpq => hq hpq.symm)]
      exact ih hnd.2

theorem erase_lookup_other (h : List (Ptr × Block)) (p q : Ptr)
    (hn : h.lookup p = none) : (h.eraseP (fun e => e.1 == q)).lookup p = none := by
  apply lookup_none_of_keys
  intro e he
  exact assoc_keys_of_none h p hn e (List.mem_of_mem_eraseP he)

theorem free_heap_ok (p : Ptr) (w : World) (n : Ptr) (hok : heap_ok w.heap n) :
    heap_ok (free p w).heap n := by
  unfold free
  by_cases hp : p = 0
  · simpa [hp] using hok
  · simpa [hp] using heap_ok_erase w.heap n p hok

theorem free_lookup_self (p : Ptr) (w : World) (n : Ptr) (hok : heap_ok w.heap n) :
    (free p w).heap.lookup p = none := by
  unfold free
  by_cases hp : p = 0
  · simp only [hp, if_true]
    exact lookup_none_of_keys w.heap 0 (fun e he => Nat.ne_of_gt (hok.2 e he).1)
  · simp only [hp, if_false]
    exact erase_lookup_self w.heap p hok.1

theorem free_lookup_other (p q : Ptr) (w : World) (hn : w.heap.lookup p = none) :
    (free q w).heap.lookup p = none := by
  unfold free
  by_cases hq : q = 0
  · simpa [hq] using hn
  · simp only [hq, if_false]
    exact erase_lookup_other w.heap p q hn

theorem start_error_frees (session : wlr_session) (w : World) (n : Ptr)
    (hok : heap_ok w.heap n) :
    (start_error session w).2.2.heap.lookup session.id = none ∧
    (start_error session w).2.2.heap.lookup session.seat = none ∧
    (start_error session w).2.2.heap.lookup session.path = none := by
  have h1 := free_heap_ok session.path w n hok
  have h2 := free_heap_ok session.id _ n h1
  refine ⟨?_, ?_, ?_⟩
  · exact free_lookup_other _ _ _ (free_lookup_self session.id _ n h1)
  · exact free_lookup_self session.seat _ n h2
  · exact free_lookup_other _ _ _ (free_lookup_other _ _ _ (free_lookup_self session.path w n hok))

theorem start_error_bus_frees (session : wlr_session) (w : World) (n : Ptr)
    (hok : heap_ok w.heap n) :
    (start_error_bus session w).2.2.heap.lookup session.id = none ∧
    (start_error_bus session w).2.2.heap.lookup session.seat = none ∧
    (start_error_bus session w).2.2.heap.lookup session.path = none := by
  rw [unwind_bus_heap]
  exact start_error_frees session w n hok

theorem world_id_ok (env : Env) (w : World) (hok : heap_ok w.heap w.next) :
    heap_ok (world_id env w).heap (w.next + 1) :=
  heap_ok_cons _ _ _ _ hok (Nat.lt_succ_self _)

theorem world_seat_ok (env : Env) (w : World) (hok : heap_ok w.heap w.next) :
    heap_ok (world_seat env w).heap (w.next + 2) :=
  heap_ok_cons _ _ _ _ (world_id_ok env w hok) (Nat.lt_succ_self _)

theorem world_path_ok (env : Env) (w : World) (hok : heap_ok w.heap w.next) :
    heap_ok (world_path env w).heap (w.next + 3) :=
  heap_ok_cons _ _ _ _ (world_seat_ok env w hok) (Nat.lt_succ_self _)

theorem not_populated_of_none (w : World) (p : Ptr) (h : w.heap.lookup p = none) :
    ¬ w.str_populated p := by
  unfold World.str_populated
  rw [h]
  simp

theorem start_failure_handle (env : Env) (session : wlr_session) (w : World) (hwf : w.wf)
    (hbus : ¬ w.bus_populated session.bus) (hfail : start_step_fails env) :
    ¬ (wlr_session_start env session w).2.2.str_populated
        (wlr_session_start env session w).2.1.id ∧
    ¬ (wlr_session_start env session w).2.2.str_populated
        (wlr_session_start env session w).2.1.seat ∧
    ¬ (wlr_session_start env session w).2.2.str_populated
        (wlr_session_start env session w).2.1.path ∧
    ¬ (wlr_session_start env session w).2.2.bus_populated
        (wlr_session_start env session w).2.1.bus := by
  have plain : ∀ (s : wlr_session) (w' : World) (n : Ptr), heap_ok w'.heap n →
      s.bus = session.bus → w'.buses = w.buses →
      ¬ (start_error s w').2.2.str_populated (start_error s w').2.1.id ∧
      ¬ (start_error s w').2.2.str_populated (start_error s w').2.1.seat ∧
      ¬ (start_error s w').2.2.str_populated (start_error s w').2.1.path ∧
      ¬ (start_error s w').2.2.bus_populated (start_error s w').2.1.bus := by
    intro s w' n hok hsb hwb
    have hf := start_error_frees s w' n hok
    rw [(start_error_flag s w').2]
    refine ⟨not_populated_of_none _ _ hf.1, not_populated_of_none _ _ hf.2.1,
      not_populated_of_none _ _ hf.2.2, ?_⟩
    unfold World.bus_populated
    rw [start_error_buses, hwb, hsb]
    exact hbus
  have closed : ∀ (w' : World), heap_ok w'.heap (w.next + 3) →
      w'.buses = (w.next + 4) :: w.buses →
      ¬ (start_error_bus (session_of w) w').2.2.str_populated
          (start_error_bus (session_of w) w').2.1.id ∧
      ¬ (start_error_bus (session_of w) w').2.2.str_populated
          (start_error_bus (session_of w) w').2.1.seat ∧
      ¬ (start_error_bus (session_of w) w').2.2.str_populated
          (start_error_bus (session_of w) w').2.1.path ∧
      ¬ (start_error_bus (session_of w) w').2.2.bus_populated
          (start_error_bus (session_of w) w').2.1.bus := by
    intro w' hok hwb
    have hf := start_error_bus_frees (session_of w) w' (w.next + 3) hok
    rw [(start_error_bus_flag (session_of w) w').2]
    refine ⟨not_populated_of_none _ _ hf.1, not_populated_of_none _ _ hf.2.1,
      not_populated_of_none _ _ hf.2.2, ?_⟩
    unfold World.bus_populated
    rw [unwind_bus (session_of w) w' w.buses (Nat.succ_ne_zero _) hwb]
    intro hb
    have hle := (hwf.2 _ hb.2).2
    exact Nat.lt_irrefl _ (Nat.lt_of_le_of_lt hle (Nat.lt_add_of_pos_right (by decide)))
  by_cases h1 : env.pid_get_session.1 < 0
  · rw [start_fail1 env _ w h1]
    exact plain session w w.next hwf.1 rfl rfl
  by_cases h2 : (env.session_get_seat env.pid_get_session.2).1 < 0
  · rw [start_fail2 env _ w h1 h2]
    exact plain _ _ _ (world_id_ok env w hwf.1) rfl rfl
  by_cases h3 : env.malloc_ok (path_alloc_size env.pid_get_session.2) = false
  · rw [start_fail3 env _ w h1 h2 h3]
    exact plain _ _ _ (world_seat_ok env w hwf.1) rfl rfl
  by_cases h4 : env.bus_open_system < 0
  · rw [start_fail4 env _ w h1 h2 h3 h4]
    exact plain _ _ _ (world_path_ok env w hwf.1) rfl rfl
  by_cases h5 : (env.call_method Member.Activate []).1 < 0
  · rw [start_fail5 env _ w h1 h2 h3 h4 h5]
    exact closed _ (by rw [rpc_world_heap]; exact world_path_ok env w hwf.1)
      (by rw [rpc_world_buses]; rfl)
  by_cases h6 : (env.call_method Member.TakeControl [Arg.b false]).1 < 0
  · rw [start_fail6 env _ w h1 h2 h3 h4 h5 h6]
    exact closed _ (by rw [rpc_world_heap, rpc_world_heap]; exact world_path_ok env w hwf.1)
      (by rw [rpc_world_buses, rpc_world_buses]; rfl)
  · exfalso
    unfold start_step_fails at hfail
    tauto

theorem start_seat_failure_pointer :
    (wlr_session_start env_no_seat empty_session demo_world).2.1 = ⟨1, 0, 0, 0⟩ ∧
    (wlr_session_start env_no_seat empty_session demo_world).2.2.heap.lookup 1 = none := by
  decide

/-! ## The handle after a failed start (C1) -/

/-- C1: in every environment in which one of the steps of `wlr_session_start`
fails, the call returns false and leaves no field of the handle populated:
each of id, seat and path is `NULL` or names a block that has been freed, and
the bus is `NULL` or names a connection that has been closed, so that no
partially populated handle survives. This holds for every handle that does
not hold an open connection when the call is made, which is every handle that
has not been started already; on the empty handle the heap and the open
connections are moreover exactly what they were before the call. -/
theorem start_failure_empties_handle (env : Env) (session : wlr_session) (w : World)
    (hwf : w.wf) (hbus : ¬ w.bus_populated session.bus) (hfail : start_step_fails env) :
    (wlr_session_start env session w).1 = false ∧
    ¬ (wlr_session_start env session w).2.2.str_populated
        (wlr_session_start env session w).2.1.id ∧
    ¬ (wlr_session_start env session w).2.2.str_populated
        (wlr_session_start env session w).2.1.seat ∧
    ¬ (wlr_session_start env session w).2.2.str_populated
        (wlr_session_start env session w).2.1.path ∧
    ¬ (wlr_session_start env session w).2.2.bus_populated
        (wlr_session_start env session w).2.1.bus ∧
    (session = empty_session →
      (wlr_session_start env session w).2.2.heap = w.heap ∧
      (wlr_session_start env session w).2.2.buses = w.buses) := by
  have hh := start_failure_handle env session w hwf hbus hfail
  refine ⟨start_flag_false env session w hfail, hh.1, hh.2.1, hh.2.2.1, hh.2.2.2, ?_⟩
  intro he
  rw [he]
  exact start_restores env w hfail

/-- C1 at concrete inputs: the empty handle, with `Activate` refused and with
no seat. -/
theorem start_failure_empties_handle_witness :
    demo_world.wf ∧ ¬ demo_world.bus_populated empty_session.bus ∧
    start_step_fails env_refused ∧ start_step_fails env_no_seat ∧
    (wlr_session_start env_refused empty_session demo_world).1 = false ∧
    ¬ (wlr_session_start env_refused empty_session demo_world).2.2.bus_populated
        (wlr_session_start env_refused empty_session demo_world).2.1.bus ∧
    ¬ (wlr_session_start env_no_seat empty_session demo_world).2.2.str_populated
        (wlr_session_start env_no_seat empty_session demo_world).2.1.id :=
  ⟨by decide, by decide, by decide, by decide,
    (start_failure_empties_handle env_refused empty_session demo_world (by decide)
      (by decide) (by decide)).1,
    (start_failure_empties_handle env_refused empty_session demo_world (by decide)
      (by decide) (by decide)).2.2.2.2.1,
    (start_failure_empties_handle env_no_seat empty_session demo_world (by decide)
      (by decide) (by decide)).2.1⟩

/-! ## A failed device take (C2) -/

/-- C2 (the code at the failing input): `stat` and the `TakeDevice` call
succeed, the reply carries the descriptor 17 and no boolean, so decoding
`"hb"` fails after the descriptor was stored; `wlr_session_take_device`
returns 17, the descriptor of the reply, not `-1`, and that descriptor is
closed once the reply is released. -/
theorem take_short_reply_returns_reply_fd :
    ¬ (env_short_reply.stat "/dev/dri/card0").1 < 0 ∧
    ¬ (env_short_reply.call_method Member.TakeDevice (dev_args 57856)).1 < 0 ∧
    (sd_bus_message_read_hb (some [Item.h 17 57856]) (-1) 0).1 < 0 ∧
    (wlr_session_take_device env_short_reply demo_session "/dev/dri/card0" (some true)
      demo_world).1 = 17 ∧
    (wlr_session_take_device env_short_reply demo_session "/dev/dri/card0" (some true)
      demo_world).2.2.fds.lookup 17 = none := by
  decide

/-! ## Take followed by release (C3) -/

/-- C3 (as stated, refuted): `/dev/dri/card0` is the device 226:0, the take
succeeds and returns the descriptor 3, but the descriptor the session manager
sent is open on the device 253:0; `ReleaseDevice` is called with `(253, 0)`,
not with the `(226, 0)` of `TakeDevice`. -/
theorem take_release_other_device :
    ¬ (env_other_device.stat "/dev/dri/card0").1 < 0 ∧
    (wlr_session_take_device env_other_device demo_session "/dev/dri/card0" none
      demo_world).1 = 3 ∧
    calls (new_events demo_world (wlr_session_release_device env_other_device demo_session
        (wlr_session_take_device env_other_device demo_session "/dev/dri/card0" none
          demo_world).1
        (wlr_session_take_device env_other_device demo_session "/dev/dri/card0" none
          demo_world).2.2)) =
      [(Member.TakeDevice, [Arg.u 226, Arg.u 0]),
       (Member.ReleaseDevice, [Arg.u 253, Arg.u 0])] := by
  decide

/-- C3 (amended): a successful `wlr_session_take_device` followed by
`wlr_session_release_device` on the returned descriptor adds exactly two
exchanges to the log, one `TakeDevice` and one `ReleaseDevice`. `TakeDevice`
carries the major and minor of the device number of the node the path names;
`ReleaseDevice` carries the major and minor of the node the returned
descriptor is open on, which is the node of the descriptor in the reply. The
two pairs are the same when the session manager granted a descriptor open on
a node with the major and minor asked for. -/
theorem take_then_release_calls (env : Env) (session : wlr_session) (path : String)
    (po : Option Bool) (w : World) (r rdev : Nat) (p : Bool) (rest : Msg)
    (hstat : ¬ (env.stat path).1 < 0)
    (hcall : ¬ (env.call_method Member.TakeDevice (dev_args (env.stat path).2)).1 < 0)
    (hreply : (env.call_method Member.TakeDevice (dev_args (env.stat path).2)).2 =
      Item.h r rdev :: Item.b p :: rest)
    (hdup : (wlr_session_take_device env session path po w).1 ≠ -1) :
    fstat (wlr_session_take_device env session path po w).1
      (wlr_session_take_device env session path po w).2.2 = (0, rdev) ∧
    new_events w (wlr_session_release_device env session
        (wlr_session_take_device env session path po w).1
        (wlr_session_take_device env session path po w).2.2) =
      exchange env session Member.TakeDevice (dev_args (env.stat path).2) ++
      exchange env session Member.ReleaseDevice (dev_args rdev) ∧
    calls (new_events w (wlr_session_release_device env session
        (wlr_session_take_device env session path po w).1
        (wlr_session_take_device env session path po w).2.2)) =
      [(Member.TakeDevice, [Arg.u (major (env.stat path).2), Arg.u (minor (env.stat path).2)]),
       (Member.ReleaseDevice, [Arg.u (major rdev), Arg.u (minor rdev)])] ∧
    (major rdev = major (env.stat path).2 ∧ minor rdev = minor (env.stat path).2 →
      calls (new_events w (wlr_session_release_device env session
          (wlr_session_take_device env session path po w).1
          (wlr_session_take_device env session path po w).2.2)) =
        [(Member.TakeDevice,
           [Arg.u (major (env.stat path).2), Arg.u (minor (env.stat path).2)]),
         (Member.ReleaseDevice,
           [Arg.u (major (env.stat path).2), Arg.u (minor (env.stat path).2)])]) := by
  have h4 := take_duplicate_facts env session path po w r rdev p rest hstat hcall hreply hdup
  have hst : fstat (wlr_session_take_device env session path po w).1
      (wlr_session_take_device env session path po w).2.2 = (0, rdev) := by
    unfold fstat
    have hneg : ¬ (wlr_session_take_device env session path po w).1 < 0 := by
      have := h4.1
      omega
    simp only [hneg, if_false, h4.2.2.2.1]
  have hok : ¬ (fstat (wlr_session_take_device env session path po w).1
      (wlr_session_take_device env session path po w).2.2).1 < 0 := by
    rw [hst]
    exact Int.lt_irrefl 0
  have hev : new_events w (wlr_session_release_device env session
        (wlr_session_take_device env session path po w).1
        (wlr_session_take_device env session path po w).2.2) =
      exchange env session Member.TakeDevice (dev_args (env.stat path).2) ++
      exchange env session Member.ReleaseDevice (dev_args rdev) := by
    apply new_events_append
    rw [release_fstat_ok env session _ _ hok, rpc_world_trace, hst,
      take_trace env session path po w hstat, List.append_assoc]
  have hcalls : calls (new_events w (wlr_session_release_device env session
        (wlr_session_take_device env session path po w).1
        (wlr_session_take_device env session path po w).2.2)) =
      [(Member.TakeDevice, [Arg.u (major (env.stat path).2), Arg.u (minor (env.stat path).2)]),
       (Member.ReleaseDevice, [Arg.u (major rdev), Arg.u (minor rdev)])] := by
    rw [hev]
    simp [calls, exchange, dev_args]
  refine ⟨hst, hev, hcalls, fun hgrant => ?_⟩
  rw [hcalls, hgrant.1, hgrant.2]

/-- The amended C3 at a concrete input: `/dev/dri/card0`, device 226:0, granted
as asked. -/
theorem take_then_release_calls_witness :
    calls (new_events demo_world (wlr_session_release_device demo_env demo_session
        (wlr_session_take_device demo_env demo_session "/dev/dri/card0" none demo_world).1
        (wlr_session_take_device demo_env demo_session "/dev/dri/card0" none demo_world).2.2)) =
      [(Member.TakeDevice, [Arg.u 226, Arg.u 0]), (Member.ReleaseDevice, [Arg.u 226, Arg.u 0])] :=
  (take_then_release_calls demo_env demo_session "/dev/dri/card0" none demo_world
    17 57856 false [] (by decide) (by decide) (by decide) (by decide)).2.2.2 (by decide)

/-! ## A successful device take (C4) -/

/-- C4: when `stat` succeeds, the `TakeDevice` call succeeds with a reply
that starts with the descriptor `r` and the boolean `p`, and the duplication
succeeds, `wlr_session_take_device` returns a descriptor that is not negative,
differs from `r`, and is open on the node `r` was open on after the reply
(and with it `r`) is released; the pause flag, when supplied, holds `p`. -/
theorem take_returns_duplicate (env : Env) (session : wlr_session) (path : String)
    (po : Option Bool) (w : World) (r rdev : Nat) (p : Bool) (rest : Msg)
    (hstat : ¬ (env.stat path).1 < 0)
    (hcall : ¬ (env.call_method Member.TakeDevice (dev_args (env.stat path).2)).1 < 0)
    (hreply : (env.call_method Member.TakeDevice (dev_args (env.stat path).2)).2 =
      Item.h r rdev :: Item.b p :: rest)
    (hdup : (wlr_session_take_device env session path po w).1 ≠ -1) :
    0 ≤ (wlr_session_take_device env session path po w).1 ∧
    (wlr_session_take_device env session path po w).1 ≠ (r : Int) ∧
    (wlr_session_take_device env session path po w).2.1 = po.map (fun _ => p) ∧
    (wlr_session_take_device env session path po w).2.2.fds.lookup
      (wlr_session_take_device env session path po w).1.toNat = some rdev ∧
    (wlr_session_take_device env session path po w).2.2.fds.lookup r = none :=
  take_duplicate_facts env session path po w r rdev p rest hstat hcall hreply hdup

/-- C4 at the scenario of the specification: `/dev/dri/card0`, reply
`(fd = 17, paused = false)`. -/
theorem take_returns_duplicate_witness :
    (wlr_session_take_device demo_env demo_session "/dev/dri/card0" (some true)
      demo_world).1 ≠ (17 : Int) ∧
    (wlr_session_take_device demo_env demo_session "/dev/dri/card0" (some true)
      demo_world).2.1 = some false :=
  have h := take_returns_duplicate demo_env demo_session "/dev/dri/card0" (some true)
    demo_world 17 57856 false [] (by decide) (by decide) (by decide) (by decide)
  ⟨h.2.1, h.2.2.1⟩

/-! ## Reply and error record (C5) -/

/-- C5: in every operation the part of the added log that concerns remote
calls is a sequence of complete exchanges, one per call made: the call, then
one `sd_bus_error_free` and one `sd_bus_message_unref` of the reply that call
left. Take and Release make one exchange, or none when the device-number
lookup fails; Start makes none when it fails before `Activate`, one when
`Activate` fails, two otherwise; End makes one. -/
theorem rpc_resources_released (env : Env) (session : wlr_session) (path : String)
    (po : Option Bool) (fd : Int) (w : World) :
    rpc_events (new_events w (wlr_session_take_device env session path po w).2.2) =
      (if (env.stat path).1 < 0 then []
       else exchange env session Member.TakeDevice (dev_args (env.stat path).2)) ∧
    rpc_events (new_events w (wlr_session_release_device env session fd w)) =
      (if (fstat fd w).1 < 0 then []
       else exchange env session Member.ReleaseDevice (dev_args (fstat fd w).2)) ∧
    rpc_events (start_events_on env session w) =
      (if env.pid_get_session.1 < 0 ∨ (env.session_get_seat env.pid_get_session.2).1 < 0 ∨
          env.malloc_ok (path_alloc_size env.pid_get_session.2) = false ∨
          env.bus_open_system < 0 then []
       else if (env.call_method Member.Activate []).1 < 0 then
         exchange env (wlr_session_start env session w).2.1 Member.Activate []
       else exchange env (wlr_session_start env session w).2.1 Member.Activate [] ++
         exchange env (wlr_session_start env session w).2.1 Member.TakeControl
           [Arg.b false]) ∧
    rpc_events (new_events w (wlr_session_end env session w)) =
      exchange env session Member.ReleaseControl [] := by
  refine ⟨?_, ?_, ?_, ?_⟩
  · by_cases hstat : (env.stat path).1 < 0
    · rw [take_stat_fail env session path po w hstat, if_pos hstat]
      simp [new_events_self, rpc_events]
    · rw [new_events_append w _ _ (take_trace env session path po w hstat), if_neg hstat,
        rpc_events_exchange]
  · by_cases hstat : (fstat fd w).1 < 0
    · rw [release_fstat_fail env session fd w hstat, if_pos hstat]
      simp [new_events_self, rpc_events]
    · rw [release_fstat_ok env session fd w hstat,
        new_events_append w _ _ (rpc_world_trace env session _ _ w), if_neg hstat,
        rpc_events_exchange]
  · by_cases h1 : env.pid_get_session.1 < 0
    · rw [start_events_on_fail1 env session w h1]
      simp [h1, rpc_events]
    by_cases h2 : (env.session_get_seat env.pid_get_session.2).1 < 0
    · rw [start_events_on_fail2 env session w h1 h2]
      simp [h2, rpc_events]
    by_cases h3 : env.malloc_ok (path_alloc_size env.pid_get_session.2) = false
    · rw [start_events_on_fail3 env session w h1 h2 h3]
      simp [h3, rpc_events]
    by_cases h4 : env.bus_open_system < 0
    · rw [start_events_on_fail4 env session w h1 h2 h3 h4]
      simp [h4, rpc_events]
    have hpre : ¬ (env.pid_get_session.1 < 0 ∨
        (env.session_get_seat env.pid_get_session.2).1 < 0 ∨
        env.malloc_ok (path_alloc_size env.pid_get_session.2) = false ∨
        env.bus_open_system < 0) := by
      tauto
    rw [if_neg hpre, start_handle_populated env session w h1 h2 h3 h4]
    by_cases h5 : (env.call_method Member.Activate []).1 < 0
    · rw [start_events_on_fail5 env session w h1 h2 h3 h4 h5, if_pos h5]
      simp [rpc_events, exchange]
    by_cases h6 : (env.call_method Member.TakeControl [Arg.b false]).1 < 0
    · rw [start_events_on_fail6 env session w h1 h2 h3 h4 h5 h6, if_neg h5]
      simp [rpc_events, exchange]
    · rw [start_events_on_ok env session w h1 h2 h3 h4 h5 h6, if_neg h5]
      simp [rpc_events, exchange]
  · rw [new_events_append w _ _ (by rw [wlr_session_end_trace, List.append_assoc])]
    simp [rpc_events, exchange]

/-! ## The call sequence of `wlr_session_start` (C6) -/

/-- C6: when the two lookups, the path allocation and the bus open succeed,
`wlr_session_start` calls `Activate` with no argument, then `TakeControl`
with the single boolean `false` if and only if `Activate` succeeded, and
nothing else; it returns true exactly when both calls succeed, and then the
four fields of the handle are set and live and the bus was not closed. -/
theorem start_call_sequence (env : Env) (session : wlr_session) (w : World)
    (h1 : ¬ env.pid_get_session.1 < 0)
    (h2 : ¬ (env.session_get_seat env.pid_get_session.2).1 < 0)
    (h3 : env.malloc_ok (path_alloc_size env.pid_get_session.2) = true)
    (h4 : ¬ env.bus_open_system < 0) :
    calls (start_events_on env session w) =
      (if (env.call_method Member.Activate []).1 < 0 then [(Member.Activate, [])]
       else [(Member.Activate, []), (Member.TakeControl, [Arg.b false])]) ∧
    ((wlr_session_start env session w).1 = true ↔
      (¬ (env.call_method Member.Activate []).1 < 0 ∧
       ¬ (env.call_method Member.TakeControl [Arg.b false]).1 < 0)) ∧
    ((wlr_session_start env session w).1 = true →
      (wlr_session_start env session w).2.1.id ≠ 0 ∧
      (wlr_session_start env session w).2.1.seat ≠ 0 ∧
      (wlr_session_start env session w).2.1.path ≠ 0 ∧
      (wlr_session_start env session w).2.1.bus ≠ 0 ∧
      ((wlr_session_start env session w).2.2.heap.lookup
        (wlr_session_start env session w).2.1.id).isSome ∧
      ((wlr_session_start env session w).2.2.heap.lookup
        (wlr_session_start env session w).2.1.seat).isSome ∧
      ((wlr_session_start env session w).2.2.heap.lookup
        (wlr_session_start env session w).2.1.path).isSome ∧
      (wlr_session_start env session w).2.1.bus ∈ (wlr_session_start env session w).2.2.buses ∧
      Event.bus_unref (wlr_session_start env session w).2.1.bus ∉
        start_events_on env session w) := by
  have h3b : ¬ env.malloc_ok (path_alloc_size env.pid_get_session.2) = false := by simp [h3]
  by_cases h5 : (env.call_method Member.Activate []).1 < 0
  · have hf : (wlr_session_start env session w).1 = false :=
      start_flag_false env session w (Or.inr (Or.inr (Or.inr (Or.inr (Or.inl h5)))))
    rw [start_events_on_fail5 env session w h1 h2 h3b h4 h5]
    simp [hf, h5, calls, exchange]
  · by_cases h6 : (env.call_method Member.TakeControl [Arg.b false]).1 < 0
    · have hf : (wlr_session_start env session w).1 = false :=
        start_flag_false env session w (Or.inr (Or.inr (Or.inr (Or.inr (Or.inr h6)))))
      rw [start_events_on_fail6 env session w h1 h2 h3b h4 h5 h6]
      simp [hf, h5, h6, calls, exchange]
    · rw [start_events_on_ok env session w h1 h2 h3b h4 h5 h6,
        start_ok env session w h1 h2 h3b h4 h5 h6]
      refine ⟨by simp [h5, calls, exchange], by simp [h5, h6], fun _ => ?_⟩
      simp only [started_heap, started_buses]
      simp [session_of, lookup_head, lookup_skip, exchange]

/-- C6 at a concrete input: a cooperative session manager. -/
theorem start_call_sequence_witness :
    calls (start_events_on demo_env empty_session demo_world) =
      [(Member.Activate, []), (Member.TakeControl, [Arg.b false])] ∧
    (wlr_session_start demo_env empty_session demo_world).1 = true :=
  have h := start_call_sequence demo_env empty_session demo_world (by decide) (by decide)
    (by decide) (by decide)
  ⟨h.1, h.2.1.mpr ⟨by decide, by decide⟩⟩

/-! ## Teardown (C7) -/

/-- C7: whatever the handle and whatever the outcome of `ReleaseControl`,
`wlr_session_end` adds to the log exactly one `ReleaseControl` exchange, then
one `sd_bus_unref` of the bus, then one `free` each of id, path and seat; the
heap and the open connections it leaves do not depend on the outcome of the
call, and nothing is returned to the caller. -/
theorem end_teardown (env : Env) (session : wlr_session) (w : World) :
    new_events w (wlr_session_end env session w) =
      exchange env session Member.ReleaseControl [] ++
        [Event.bus_unref session.bus, Event.free session.id, Event.free session.path,
          Event.free session.seat] ∧
    calls (new_events w (wlr_session_end env session w)) = [(Member.ReleaseControl, [])] ∧
    (∀ env', (wlr_session_end env' session w).heap = (wlr_session_end env session w).heap ∧
      (wlr_session_end env' session w).buses = (wlr_session_end env session w).buses) := by
  have hev := new_events_append w (wlr_session_end env session w) _
    (by rw [wlr_session_end_trace, List.append_assoc])
  refine ⟨hev, ?_, fun env' => ?_⟩
  · rw [hev]
    simp [calls, exchange]
  · rw [(wlr_session_end_state env' session w).1, (wlr_session_end_state env' session w).2,
      (wlr_session_end_state env session w).1, (wlr_session_end_state env session w).2]
    exact ⟨rfl, rfl⟩

/-! ## The object path (C8) -/

/-- C8: after a successful `wlr_session_start` the path field names a block
that holds exactly `"/org/freedesktop/login1/session/"` followed by the
session id (32 characters plus the length of the id), and the block is one
byte longer than that text: the text and its terminator fill it exactly.
The id is one for which the formatted length plus one, the sum the code
computes in `int`, fits an `int`. -/
theorem start_object_path (env : Env) (session : wlr_session) (w : World)
    (hok : (wlr_session_start env session w).1 = true)
    (hlen : ((session_fmt ++ env.pid_get_session.2).length : Int) < INT_MAX) :
    session_fmt = "/org/freedesktop/login1/session/" ∧
    cstr (wlr_session_start env session w).2.2 (wlr_session_start env session w).2.1.id =
      env.pid_get_session.2 ∧
    cstr (wlr_session_start env session w).2.2 (wlr_session_start env session w).2.1.path =
      "/org/freedesktop/login1/session/" ++ env.pid_get_session.2 ∧
    (cstr (wlr_session_start env session w).2.2
      (wlr_session_start env session w).2.1.path).length = 32 + env.pid_get_session.2.length ∧
    (wlr_session_start env session w).2.2.heap.lookup (wlr_session_start env session w).2.1.path =
      some ⟨32 + env.pid_get_session.2.length + 1,
        "/org/freedesktop/login1/session/" ++ env.pid_get_session.2⟩ := by
  have hnf : ¬ start_step_fails env := by
    intro hf
    rw [start_flag_false env session w hf] at hok
    exact Bool.noConfusion hok
  unfold start_step_fails at hnf
  simp only [not_or] at hnf
  obtain ⟨h1, h2, h3, h4, h5, h6⟩ := hnf
  have hsz := path_alloc_size_eq env.pid_get_session.2 hlen
  have hl : (session_fmt ++ env.pid_get_session.2).length =
      32 + env.pid_get_session.2.length := by
    rw [String.length_append]
    rfl
  rw [start_ok env session w h1 h2 h3 h4 h5 h6]
  simp only [cstr, started_heap]
  simp only [session_of, lookup_head, hsz, hl]
  refine ⟨rfl, ?_, rfl, trivial, rfl⟩
  rw [lookup_skip _ _ _ _ (by simp), lookup_skip _ _ _ _ (by simp), lookup_head]

/-- C8 at a concrete input: session `c1`. -/
theorem start_object_path_witness :
    (wlr_session_start demo_env empty_session demo_world).1 = true ∧
    ((session_fmt ++ demo_env.pid_get_session.2).length : Int) < INT_MAX ∧
    cstr (wlr_session_start demo_env empty_session demo_world).2.2
      (wlr_session_start demo_env empty_session demo_world).2.1.path =
      "/org/freedesktop/login1/session/" ++ demo_env.pid_get_session.2 :=
  ⟨by decide, by decide,
    (start_object_path demo_env empty_session demo_world (by decide) (by decide)).2.2.1⟩

/-! ## A failed device-number lookup (C9) -/

/-- C9: when `stat` of the path fails, `wlr_session_take_device` returns `-1`
and leaves the flag and the whole world as they were; when `fstat` of the
descriptor fails, `wlr_session_release_device` leaves the world as it was.
Neither adds an event to the log, so no remote call is made; the handle is
only read by both. -/
theorem lookup_failure_no_call (env : Env) (session : wlr_session) (path : String)
    (po : Option Bool) (fd : Int) (w : World) :
    ((env.stat path).1 < 0 →
      wlr_session_take_device env session path po w = (-1, po, w) ∧
      new_events w (wlr_session_take_device env session path po w).2.2 = []) ∧
    ((fstat fd w).1 < 0 →
      wlr_session_release_device env session fd w = w ∧
      new_events w (wlr_session_release_device env session fd w) = []) := by
  refine ⟨fun h => ?_, fun h => ?_⟩
  · rw [take_stat_fail env session path po w h]
    exact ⟨rfl, new_events_self w⟩
  · rw [release_fstat_fail env session fd w h]
    exact ⟨rfl, new_events_self w⟩

/-- C9 at a concrete input: a path that does not exist and the descriptor
`-1`. -/
theorem lookup_failure_no_call_witness :
    wlr_session_take_device demo_env demo_session "/dev/null0" (some true) demo_world =
      (-1, some true, demo_world) ∧
    wlr_session_release_device demo_env demo_session (-1) demo_world = demo_world :=
  ⟨((lookup_failure_no_call demo_env demo_session "/dev/null0" (some true) (-1)
      demo_world).1 (by decide)).1,
   ((lookup_failure_no_call demo_env demo_session "/dev/null0" (some true) (-1)
      demo_world).2 (by decide)).1⟩

/-! ## The unwind of `wlr_session_start` (C10) -/

/-- C10: a failed `wlr_session_start` releases exactly what the steps before
the failing one acquired, each once, and nothing else. A failed session lookup
acquires and releases nothing; a failed seat lookup frees only the session id
and neither opens nor closes a bus; a failed path allocation frees id and
seat; a failed bus open frees path, id and seat and closes no bus; a failed
`Activate` or `TakeControl` closes the bus once and then frees path, id and
seat. In the first two cases the unwind also passes to `free` the string
fields the call has not assigned yet, which releases nothing because they are
`NULL` in a handle the caller created empty. -/
theorem start_unwind_releases_acquired (env : Env) (session : wlr_session) (w : World) :
    (env.pid_get_session.1 < 0 →
      session.id = 0 → session.seat = 0 → session.path = 0 →
      acquired (start_events_on env session w) = [] ∧
      released (start_events_on env session w) = []) ∧
    (¬ env.pid_get_session.1 < 0 →
      (env.session_get_seat env.pid_get_session.2).1 < 0 →
      session.seat = 0 → session.path = 0 →
      acquired (start_events_on env session w) =
        [Event.alloc (wlr_session_start env session w).2.1.id] ∧
      released (start_events_on env session w) =
        [Event.free (wlr_session_start env session w).2.1.id]) ∧
    (¬ env.pid_get_session.1 < 0 →
      ¬ (env.session_get_seat env.pid_get_session.2).1 < 0 →
      env.malloc_ok (path_alloc_size env.pid_get_session.2) = false →
      acquired (start_events_on env session w) =
        [Event.alloc (wlr_session_start env session w).2.1.id,
          Event.alloc (wlr_session_start env session w).2.1.seat] ∧
      released (start_events_on env session w) =
        [Event.free (wlr_session_start env session w).2.1.id,
          Event.free (wlr_session_start env session w).2.1.seat]) ∧
    (¬ env.pid_get_session.1 < 0 →
      ¬ (env.session_get_seat env.pid_get_session.2).1 < 0 →
      ¬ env.malloc_ok (path_alloc_size env.pid_get_session.2) = false →
      env.bus_open_system < 0 →
      acquired (start_events_on env session w) =
        [Event.alloc (wlr_session_start env session w).2.1.id,
          Event.alloc (wlr_session_start env session w).2.1.seat,
          Event.alloc (wlr_session_start env session w).2.1.path] ∧
      released (start_events_on env session w) =
        [Event.free (wlr_session_start env session w).2.1.path,
          Event.free (wlr_session_start env session w).2.1.id,
          Event.free (wlr_session_start env session w).2.1.seat]) ∧
    (¬ env.pid_get_session.1 < 0 →
      ¬ (env.session_get_seat env.pid_get_session.2).1 < 0 →
      ¬ env.malloc_ok (path_alloc_size env.pid_get_session.2) = false →
      ¬ env.bus_open_system < 0 →
      ((env.call_method Member.Activate []).1 < 0 ∨
        (env.call_method Member.TakeControl [Arg.b false]).1 < 0) →
      acquired (start_events_on env session w) =
        [Event.alloc (wlr_session_start env session w).2.1.id,
          Event.alloc (wlr_session_start env session w).2.1.seat,
          Event.alloc (wlr_session_start env session w).2.1.path,
          Event.bus_open (wlr_session_start env session w).2.1.bus] ∧
      released (start_events_on env session w) =
        [Event.bus_unref (wlr_session_start env session w).2.1.bus,
          Event.free (wlr_session_start env session w).2.1.path,
          Event.free (wlr_session_start env session w).2.1.id,
          Event.free (wlr_session_start env session w).2.1.seat]) := by
  refine ⟨?_, ?_, ?_, ?_, ?_⟩
  · intro h1 hi hs hp
    rw [start_events_on_fail1 env session w h1]
    simp [acquired, released, hi, hs, hp]
  · intro h1 h2 hs hp
    rw [start_events_on_fail2 env session w h1 h2, start_fail2 env session w h1 h2,
      (start_error_flag _ _).2]
    simp [acquired, released, hs, hp]
  · intro h1 h2 h3
    rw [start_events_on_fail3 env session w h1 h2 h3, start_fail3 env session w h1 h2 h3,
      (start_error_flag _ _).2]
    simp [acquired, released]
  · intro h1 h2 h3 h4
    rw [start_events_on_fail4 env session w h1 h2 h3 h4,
      start_fail4 env session w h1 h2 h3 h4, (start_error_flag _ _).2]
    simp [acquired, released]
  · intro h1 h2 h3 h4 h56
    rw [start_handle_populated env session w h1 h2 h3 h4]
    by_cases h5 : (env.call_method Member.Activate []).1 < 0
    · rw [start_events_on_fail5 env session w h1 h2 h3 h4 h5]
      simp [acquired, released, exchange, session_of]
    · have h6 : (env.call_method Member.TakeControl [Arg.b false]).1 < 0 := by
        rcases h56 with h | h
        · exact absurd h h5
        · exact h
      rw [start_events_on_fail6 env session w h1 h2 h3 h4 h5 h6]
      simp [acquired, released, exchange, session_of]

/-- C10 at concrete inputs: no session, no seat, no memory for the path, no
bus, and `Activate` refused. -/
theorem start_unwind_releases_acquired_witness :
    released (start_events_on env_no_session empty_session demo_world) = [] ∧
    released (start_events_on env_no_seat empty_session demo_world) = [Event.free 1] ∧
    released (start_events_on env_no_memory empty_session demo_world) =
      [Event.free 1, Event.free 2] ∧
    released (start_events_on env_no_bus empty_session demo_world) =
      [Event.free 3, Event.free 1, Event.free 2] ∧
    released (start_events_on env_refused empty_session demo_world) =
      [Event.bus_unref 4, Event.free 3, Event.free 1, Event.free 2] :=
  ⟨((start_unwind_releases_acquired env_no_session empty_session demo_world).1
      (by decide) rfl rfl rfl).2,
   ((start_unwind_releases_acquired env_no_seat empty_session demo_world).2.1
      (by decide) (by decide) rfl rfl).2,
   ((start_unwind_releases_acquired env_no_memory empty_session demo_world).2.2.1
      (by decide) (by decide) (by decide)).2,
   ((start_unwind_releases_acquired env_no_bus empty_session demo_world).2.2.2.1
      (by decide) (by decide) (by decide) (by decide)).2,
   ((start_unwind_releases_acquired env_refused empty_session demo_world).2.2.2.2
      (by decide) (by decide) (by decide) (by decide) (by decide)).2⟩

end Session
